import Mathlib

/-!
Verification development for the iframe-api-proxy package: a postMessage-based
request/response proxy between a privileged page (client / Requestor) and an
iframe (server / Responder).  The definitions below are a shallow embedding of
the TypeScript sources:

  src/types/ApiTypes.ts      (request shapes, validation, legacy conversion)
  src/types/MessageTypes.ts  (wire envelopes and type guards)
  src/types/ProxyTypes.ts    (configuration, errors, origin whitelist)
  src/server/ApiProxyServer.ts (Responder: request decoding and fetch building)
  src/client/ApiProxyClient.ts (Requestor: pending map, timeouts, retries)

Modelling conventions:
  - JavaScript values carried as "any" are modelled by the inductive JVal.
  - Date.now() readings are supplied as explicit Nat parameters of events.
  - Correlation ids (strings "req_<time>_<random>" in the source, whose only
    contract is process-lifetime uniqueness) are modelled as Nats drawn from a
    fresh counter; setTimeout handles likewise.
  - The fetch collaborator is an oracle FetchCall -> FetchOutcome; each server
    pipeline function returns the list of fetch calls it issued alongside its
    result, and thrown JS exceptions are modelled with Except.
  - Debug logging (behaviour-free) and the debug / requestIdPrefix / serverId
    configuration fields not read by any modelled code path are omitted.
-/

namespace IframeProxy

/-- JSON values, for payload bags, response bodies and wire envelopes. -/
inductive JVal where
  | jnull : JVal
  | jbool : Bool → JVal
  | jnum : Int → JVal
  | jstr : String → JVal
  | jarr : List JVal → JVal
  | jobj : List (String × JVal) → JVal


/-- JavaScript truthiness of a JVal ("undefined" is Option.none at use sites). -/
def jsTruthy : JVal → Bool
  | .jnull => false
  | .jbool b => b
  | .jnum n => n != 0
  | .jstr s => s ≠ ""
  | .jarr _ => true
  | .jobj _ => true

/-- First-match lookup in a JS-object field list. -/
def recordLookup (k : String) : List (String × JVal) → Option JVal
  | [] => none
  | (k', v) :: rest => if k' = k then some v else recordLookup k rest

/-- Field lookup inside a JSON object value; none on non-objects. -/
def jGet (v : JVal) (k : String) : Option JVal :=
  match v with
  | .jobj fields => recordLookup k fields
  | _ => none

/-- typeof v === "object" in JavaScript (null and arrays are objects). -/
def jsTypeofIsObject : JVal → Bool
  | .jnull => true
  | .jarr _ => true
  | .jobj _ => true
  | _ => false

/-- Minimal JSON string escaping (quote and backslash), enough for the
wire bodies built by this package. -/
def escapeJsonChar (c : Char) : String :=
  if c = '"' then "\\\"" else if c = '\\' then "\\\\" else String.singleton c

def escapeJson (s : String) : String :=
  String.join (s.data.map escapeJsonChar)

def quoteJson (s : String) : String :=
  "\"" ++ escapeJson s ++ "\""

mutual
/-- JSON.stringify on a JVal (insertion order preserved, no spaces). -/
def stringifyJVal : JVal → String
  | .jnull => "null"
  | .jbool b => if b then "true" else "false"
  | .jnum n => toString n
  | .jstr s => quoteJson s
  | .jarr xs => "[" ++ stringifyJList xs ++ "]"
  | .jobj fs => "\x7b" ++ stringifyJFields fs ++ "\x7d"

def stringifyJList : List JVal → String
  | [] => ""
  | [x] => stringifyJVal x
  | x :: rest => stringifyJVal x ++ "," ++ stringifyJList rest

def stringifyJFields : List (String × JVal) → String
  | [] => ""
  | [(k, v)] => quoteJson k ++ ":" ++ stringifyJVal v
  | (k, v) :: rest => quoteJson k ++ ":" ++ stringifyJVal v ++ "," ++ stringifyJFields rest
end

/-- String interpolation of a possibly-undefined JS value inside a template
literal (undefined prints as "undefined", objects as "[object Object]"). -/
def jsTemplate : Option JVal → String
  | none => "undefined"
  | some .jnull => "null"
  | some (.jbool b) => if b then "true" else "false"
  | some (.jnum n) => toString n
  | some (.jstr s) => s
  | some (.jarr _) => ""
  | some (.jobj _) => "[object Object]"

-- =============================================================================
-- ApiTypes.ts
-- =============================================================================

/-- Legacy flat request shape (ApiRequest in ApiTypes.ts).  Optional fields use
Option; none corresponds to the property being undefined / absent. -/
structure ApiRequest where
  method : String
  params : Option (List (String × JVal))
  userId : String
  communityId : String
  signature : Option String


/-- Structured plugin-call shape (PluginRequest in ApiTypes.ts).  The constant
tag field type: "plugin" of the TS interface is carried by the ProxyRequest
constructor below. -/
structure PluginRequest where
  method : String
  params : Option (List (String × JVal))
  userId : String
  communityId : String
  signature : Option String


/-- Raw HTTP passthrough shape (DirectApiRequest in ApiTypes.ts). -/
structure DirectApiRequest where
  url : String
  method : Option String
  headers : Option (List (String × String))
  body : Option JVal
  timeout : Option Nat


/-- Tagged union of the two request variants (ProxyRequest in ApiTypes.ts). -/
inductive ProxyRequest where
  | plugin : PluginRequest → ProxyRequest
  | direct : DirectApiRequest → ProxyRequest


/-- Static method-to-endpoint table (API_ENDPOINTS in ApiTypes.ts). -/
def API_ENDPOINTS : String → Option String
  | "getUserInfo" => some "/api/user"
  | "getUserFriends" => some "/api/user"
  | "getContextData" => some "/api/user"
  | "getCommunityInfo" => some "/api/community"
  | "giveRole" => some "/api/community"
  | "getUserCommunities" => some "/api/communities"
  | "getUserProfile" => some "/api/auth/validate-session"
  | _ => none

/-- validateApiRequest: method, userId, communityId truthy and method known. -/
def validateApiRequest (r : ApiRequest) : Bool :=
  r.method ≠ "" && r.userId ≠ "" && r.communityId ≠ "" && (API_ENDPOINTS r.method).isSome

/-- validatePluginRequest (the type tag check is carried by the constructor). -/
def validatePluginRequest (r : PluginRequest) : Bool :=
  r.method ≠ "" && r.userId ≠ "" && r.communityId ≠ "" && (API_ENDPOINTS r.method).isSome

/-- validateDirectApiRequest: url must be a truthy string. -/
def validateDirectApiRequest (r : DirectApiRequest) : Bool :=
  r.url ≠ ""

/-- validateProxyRequest: dispatch on the type tag. -/
def validateProxyRequest : ProxyRequest → Bool
  | .plugin p => validatePluginRequest p
  | .direct d => validateDirectApiRequest d

/-- convertLegacyRequest from ApiTypes.ts: build the base object, then attach
params and signature only when they are defined. -/
def convertLegacyRequest (legacyRequest : ApiRequest) : PluginRequest :=
  let converted : PluginRequest :=
    { method := legacyRequest.method
      userId := legacyRequest.userId
      communityId := legacyRequest.communityId
      params := none
      signature := none }
  let converted :=
    match legacyRequest.params with
    | some p => { converted with params := some p }
    | none => converted
  match legacyRequest.signature with
  | some s => { converted with signature := some s }
  | none => converted

/-- JSON.stringify of an ApiRequest object whose keys were inserted in the
order method, userId, communityId, params?, signature? (the order used when
the server reconstructs the legacy payload in processPluginRequest). -/
def stringifyApiRequest (r : ApiRequest) : String :=
  "\x7b" ++ quoteJson "method" ++ ":" ++ quoteJson r.method
  ++ "," ++ quoteJson "userId" ++ ":" ++ quoteJson r.userId
  ++ "," ++ quoteJson "communityId" ++ ":" ++ quoteJson r.communityId
  ++ (match r.params with
      | some p => "," ++ quoteJson "params" ++ ":" ++ stringifyJVal (.jobj p)
      | none => "")
  ++ (match r.signature with
      | some s => "," ++ quoteJson "signature" ++ ":" ++ quoteJson s
      | none => "")
  ++ "\x7d"

-- =============================================================================
-- MessageTypes.ts
-- =============================================================================

/-- Correlation ids: opaque unique tokens (strings in the source, produced by
generateRequestId from a clock and a random suffix; uniqueness is the only
property any code relies on, so they are modelled as counter-drawn Nats). -/
abbrev RequestId := Nat

/-- Message kind tags (MessageType enum). -/
inductive MessageType where
  | apiRequest
  | apiResponse
  | proxyApiRequest
  | proxyApiResponse
  | proxyError
  | proxyInit
  | proxyReady
deriving DecidableEq

/-- The two accepted inbound request envelope shapes on one wire type
(LegacyProxyRequestMessage and EnhancedProxyRequestMessage; both carry
type = PROXY_API_REQUEST, which the constructors encode). -/
inductive ProxyRequestMessage where
  | legacy : RequestId → String → ApiRequest → Nat → ProxyRequestMessage
  | enhanced : RequestId → ProxyRequest → Nat → ProxyRequestMessage

def ProxyRequestMessage.requestId : ProxyRequestMessage → RequestId
  | .legacy rid _ _ _ => rid
  | .enhanced rid _ _ => rid

/-- Response envelope sent back by the Responder (ProxyApiResponseMessage);
the response payload is an arbitrary JSON value on the wire. -/
structure ProxyApiResponseMessage where
  mtype : MessageType
  requestId : RequestId
  response : JVal
  timestamp : Nat

/-- createProxyResponse from MessageTypes.ts. -/
def createProxyResponse (requestId : RequestId) (response : JVal) (now : Nat) :
    ProxyApiResponseMessage :=
  { mtype := MessageType.proxyApiResponse
    requestId := requestId
    response := response
    timestamp := now }

/-- isEnhancedProxyRequest / isLegacyProxyRequest / isAnyProxyRequest guards on
already-shaped messages: the structural field-presence checks of the source
reduce on this typed wire form to the truthiness checks that remain. -/
def isAnyProxyRequest : ProxyRequestMessage → Bool
  | .enhanced _ _ _ => true
  | .legacy _ endpoint _ _ => endpoint ≠ ""

-- =============================================================================
-- ProxyTypes.ts
-- =============================================================================

/-- Error kinds (ProxyErrorType enum). -/
inductive ProxyErrorType where
  | TIMEOUT
  | NETWORK_ERROR
  | INVALID_REQUEST
  | INVALID_RESPONSE
  | NO_ACTIVE_IFRAME
  | INITIALIZATION_ERROR
  | PERMISSION_DENIED
  | UNKNOWN_ERROR
deriving DecidableEq

/-- A ProxyError as built by createProxyError (the Date.now timestamp and the
optional originalError chain, which no code path reads back, are omitted). -/
structure ProxyErr where
  etype : ProxyErrorType
  message : String
  requestId : Option RequestId
deriving DecidableEq

/-- createProxyError without a request id. -/
def createProxyError (etype : ProxyErrorType) (message : String) : ProxyErr :=
  { etype := etype, message := message, requestId := none }

/-- createProxyError with a request id. -/
def createProxyErrorFor (etype : ProxyErrorType) (message : String)
    (requestId : RequestId) : ProxyErr :=
  { etype := etype, message := message, requestId := some requestId }

/-- A thrown JavaScript value on the server side: either a ProxyError built by
createProxyError or a plain platform Error (fetch/JSON failures), of which
only the message survives into the error reply. -/
inductive JsError where
  | proxy : ProxyErr → JsError
  | plain : String → JsError
deriving DecidableEq

/-- error instanceof Error ? error.message : "Unknown error" (both modelled
constructors are Error instances carrying a message). -/
def errMessage : JsError → String
  | .proxy e => e.message
  | .plain m => m

/-- Tokens of the regular expression obtained from an origin whitelist entry by
the source transformation allowed.replace(star, dot-star): a star entry char
becomes dot-star, a dot is the regex any-char, and remaining characters are
literals.  (Entries containing other regex metacharacters would diverge from
the JavaScript RegExp; origins and origin patterns do not contain them.) -/
inductive RTok where
  | lit : Char → RTok
  | anyChar : RTok
  | star : RTok

/-- Compile a whitelist entry to the token list of the anchored regex. -/
def compilePattern (p : String) : List RTok :=
  p.data.map fun c =>
    if c = '*' then RTok.star else if c = '.' then RTok.anyChar else RTok.lit c

/-- Anchored matching of the compiled pattern against the origin characters. -/
def rmatch : List RTok → List Char → Bool
  | [], [] => true
  | [], _ :: _ => false
  | RTok.lit _ :: _, [] => false
  | RTok.lit c :: ts, x :: xs => c = x && rmatch ts xs
  | RTok.anyChar :: _, [] => false
  | RTok.anyChar :: ts, _ :: xs => rmatch ts xs
  | RTok.star :: ts, [] => rmatch ts []
  | RTok.star :: ts, x :: xs =>
      rmatch ts (x :: xs) || rmatch (RTok.star :: ts) xs
termination_by ts cs => (ts.length, cs.length)

/-- isOriginAllowed from ProxyTypes.ts: empty whitelist allows all; otherwise
an exact member or a wildcard entry (containing a star character) whose
anchored regex matches. -/
def isOriginAllowed (origin : String) (allowedOrigins : List String) : Bool :=
  if allowedOrigins.isEmpty then
    true
  else if allowedOrigins.contains origin then
    true
  else
    allowedOrigins.any fun allowed =>
      if allowed.data.contains '*' then
        rmatch (compilePattern allowed) origin.data
      else
        false

-- =============================================================================
-- ApiProxyServer.ts
-- =============================================================================

/-- Server configuration after mergeServerConfig (all fields resolved). -/
structure ServerConfig where
  baseUrl : String
  timeout : Nat
  headers : List (String × String)
  allowedOrigins : List String

/-- One outbound network call as handed to fetch: url plus the RequestInit
fields built by the server (timeoutMs is the AbortController deadline, none
when no signal is attached because the timeout is zero). -/
structure FetchCall where
  url : String
  method : String
  headers : List (String × String)
  body : Option String
  timeoutMs : Option Nat
deriving DecidableEq

/-- The Response object divided into the observations the server makes of it:
jsonBody is some v when the body parses as JSON (response.json succeeds). -/
structure FetchResp where
  ok : Bool
  status : Nat
  statusText : String
  contentType : String
  jsonBody : Option JVal
  textBody : String

/-- Outcome of awaiting fetch: either the fetch promise rejected (network or
abort error) or a Response arrived. -/
inductive FetchOutcome where
  | threw : String → FetchOutcome
  | resp : FetchResp → FetchOutcome

/-- The external network executor, as a deterministic oracle. -/
abbrev FetchOracle := FetchCall → FetchOutcome

/-- Setting one key in a JS object literal under construction: an existing key
is overwritten in place, a new key is appended (JS spread/property order). -/
def objSet : List (String × String) → String → String → List (String × String)
  | [], k, v => [(k, v)]
  | (k1, v1) :: rest, k, v =>
      if k1 = k then (k, v) :: rest else (k1, v1) :: objSet rest k v

/-- Spreading the object extra onto the object base, key by key. -/
def objMergeList (base extra : List (String × String)) : List (String × String) :=
  extra.foldl (fun acc p => objSet acc p.1 p.2) base

/-- Reading a header value back out of a built header object. -/
def headerLookup (k : String) : List (String × String) → Option String
  | [] => none
  | (k', v) :: rest => if k' = k then some v else headerLookup k rest

def isJNull : JVal → Bool
  | .jnull => true
  | _ => false

/-- contentType.includes(sub) for a fixed non-empty needle. -/
def strIncludes (s sub : String) : Bool :=
  (s.splitOn sub).length != 1

/-- processResponse: non-2xx throws NETWORK_ERROR; a body that fails to parse
as JSON throws INVALID_RESPONSE; a parsed body that is not a non-null object
throws INVALID_RESPONSE; otherwise the body is passed through unchanged. -/
def processResponse (r : FetchResp) : Except JsError JVal :=
  if !r.ok then
    .error (.proxy (createProxyError ProxyErrorType.NETWORK_ERROR
      ("HTTP " ++ toString r.status ++ ": " ++ r.statusText)))
  else
    match r.jsonBody with
    | none => .error (.proxy (createProxyError ProxyErrorType.INVALID_RESPONSE
        "Invalid JSON response from API"))
    | some data =>
        if !jsTypeofIsObject data || isJNull data then
          .error (.proxy (createProxyError ProxyErrorType.INVALID_RESPONSE
            "Invalid response format from API"))
        else
          .ok data

/-- processRawApiResponse: same checks, then the raw body is wrapped into the
standard envelope with success true. -/
def processRawApiResponse (r : FetchResp) : Except JsError JVal :=
  if !r.ok then
    .error (.proxy (createProxyError ProxyErrorType.NETWORK_ERROR
      ("HTTP " ++ toString r.status ++ ": " ++ r.statusText)))
  else
    match r.jsonBody with
    | none => .error (.proxy (createProxyError ProxyErrorType.INVALID_RESPONSE
        "Invalid JSON response from API"))
    | some rawData =>
        if !jsTypeofIsObject rawData || isJNull rawData then
          .error (.proxy (createProxyError ProxyErrorType.INVALID_RESPONSE
            "Invalid response format from API"))
        else
          .ok (.jobj [("success", .jbool true), ("data", rawData)])

/-- processDirectHttpResponse: non-2xx throws NETWORK_ERROR; a JSON content
type makes the server parse the body (a parse failure is an uncaught
exception from response.json, caught only by the outer handler); any other
content type returns the body text. -/
def processDirectHttpResponse (r : FetchResp) : Except JsError JVal :=
  if !r.ok then
    .error (.proxy (createProxyError ProxyErrorType.NETWORK_ERROR
      ("HTTP " ++ toString r.status ++ ": " ++ r.statusText)))
  else if strIncludes r.contentType "application/json" then
    match r.jsonBody with
    | some v => .ok v
    | none => .error (.plain "Unexpected end of JSON input")
  else
    .ok (.jstr r.textBody)

/-- payload.params?.sessionToken -/
def sessionTokenOf (payload : ApiRequest) : Option JVal :=
  payload.params.bind (recordLookup "sessionToken")

/-- JSON.stringify of the object literal containing only sessionToken (an
undefined token makes stringify drop the property). -/
def stringifySessionTokenBody (tok : Option JVal) : String :=
  match tok with
  | none => "\x7b\x7d"
  | some v => "\x7b" ++ quoteJson "sessionToken" ++ ":" ++ stringifyJVal v ++ "\x7d"

/-- The method, headers and body makeApiRequest chooses per endpoint:
/api/communities gets GET with a bearer Authorization header, the
validate-session endpoint gets POST with the session token as body, every
other plugin endpoint gets POST with the whole payload as body; in each case
the configured default headers are spread onto the object literal after the
call-specific entries. -/
structure BuiltRequestInit where
  method : String
  headers : List (String × String)
  body : Option String

def buildRequestOptions (cfg : ServerConfig) (endpoint : String)
    (payload : ApiRequest) : BuiltRequestInit :=
  if endpoint = "/api/communities" then
    { method := "GET"
      headers := objMergeList
        [("Authorization", "Bearer " ++ jsTemplate (sessionTokenOf payload)),
         ("Content-Type", "application/json")] cfg.headers
      body := none }
  else if endpoint = "/api/auth/validate-session" then
    { method := "POST"
      headers := objMergeList [("Content-Type", "application/json")] cfg.headers
      body := some (stringifySessionTokenBody (sessionTokenOf payload)) }
  else
    { method := "POST"
      headers := objMergeList [("Content-Type", "application/json")] cfg.headers
      body := some (stringifyApiRequest payload) }

/-- makeApiRequest: one fetch to baseUrl ++ endpoint with the built options;
the two bootstrap endpoints have their raw bodies wrapped, the rest are
passed through after the envelope sanity check.  (The source duplicates the
response-format branch in its timeout and no-timeout arms; the arms are
identical apart from the AbortController, which timeoutMs records.) -/
def makeApiRequest (cfg : ServerConfig) (endpoint : String) (payload : ApiRequest)
    (oracle : FetchOracle) : Except JsError JVal × List FetchCall :=
  let url := cfg.baseUrl ++ endpoint
  let opts := buildRequestOptions cfg endpoint payload
  let call : FetchCall :=
    { url := url, method := opts.method, headers := opts.headers, body := opts.body
      timeoutMs := if cfg.timeout > 0 then some cfg.timeout else none }
  let result :=
    match oracle call with
    | .threw m => Except.error (JsError.plain m)
    | .resp r =>
        if endpoint = "/api/communities" || endpoint = "/api/auth/validate-session" then
          processRawApiResponse r
        else
          processResponse r
  (result, [call])

/-- makeDirectHttpRequest: resolve a relative url against the base address,
default the verb to GET, spread configured then per-request headers over the
JSON content type, attach the body only for truthy bodies on non-GET verbs,
and honour the per-call timeout override (zero falls back to the default). -/
def makeDirectHttpRequest (cfg : ServerConfig) (request : DirectApiRequest)
    (oracle : FetchOracle) : Except JsError JVal × List FetchCall :=
  let url := if request.url.startsWith "http" then request.url
             else cfg.baseUrl ++ request.url
  let method := match request.method with
    | none => "GET"
    | some m => if m = "" then "GET" else m
  let headers := objMergeList
    (objMergeList [("Content-Type", "application/json")] cfg.headers)
    (request.headers.getD [])
  let body := match request.body with
    | some b =>
        if jsTruthy b && method ≠ "GET" then
          some (match b with | .jstr s => s | v => stringifyJVal v)
        else none
    | none => none
  let timeout := match request.timeout with
    | some t => if t != 0 then t else cfg.timeout
    | none => cfg.timeout
  let call : FetchCall :=
    { url := url, method := method, headers := headers, body := body
      timeoutMs := if timeout > 0 then some timeout else none }
  let result :=
    match oracle call with
    | .threw m => Except.error (JsError.plain m)
    | .resp r => processDirectHttpResponse r
  (result, [call])

/-- The method-to-endpoint table inlined in getEndpointForPluginMethod (a
verbatim duplicate of API_ENDPOINTS in the source). -/
def methodToEndpoint : String → Option String
  | "getUserInfo" => some "/api/user"
  | "getUserFriends" => some "/api/user"
  | "getContextData" => some "/api/user"
  | "getCommunityInfo" => some "/api/community"
  | "giveRole" => some "/api/community"
  | "getUserCommunities" => some "/api/communities"
  | "getUserProfile" => some "/api/auth/validate-session"
  | _ => none

/-- getEndpointForPluginMethod: unknown methods throw INVALID_REQUEST. -/
def getEndpointForPluginMethod (method : String) : Except JsError String :=
  match methodToEndpoint method with
  | none => .error (.proxy (createProxyError ProxyErrorType.INVALID_REQUEST
      ("Unknown plugin method: " ++ method)))
  | some endpoint => .ok endpoint

/-- processPluginRequest: resolve the endpoint, convert back to the legacy
payload shape (defined optional fields only), and run makeApiRequest. -/
def processPluginRequest (cfg : ServerConfig) (request : PluginRequest)
    (oracle : FetchOracle) : Except JsError JVal × List FetchCall :=
  match getEndpointForPluginMethod request.method with
  | .error e => (.error e, [])
  | .ok endpoint =>
      let legacyRequest : ApiRequest :=
        { method := request.method
          userId := request.userId
          communityId := request.communityId
          params := none
          signature := none }
      let legacyRequest :=
        match request.params with
        | some p => { legacyRequest with params := some p }
        | none => legacyRequest
      let legacyRequest :=
        match request.signature with
        | some s => { legacyRequest with signature := some s }
        | none => legacyRequest
      makeApiRequest cfg endpoint legacyRequest oracle

/-- processDirectRequest: run the raw call and wrap the body in the standard
envelope with success true. -/
def processDirectRequest (cfg : ServerConfig) (request : DirectApiRequest)
    (oracle : FetchOracle) : Except JsError JVal × List FetchCall :=
  let (result, calls) := makeDirectHttpRequest cfg request oracle
  (result.map (fun rawData => .jobj [("success", .jbool true), ("data", rawData)]), calls)

/-- processProxyRequest: validate, then dispatch on the variant tag.  (The
unknown-tag throw of the source is unreachable on this typed wire form.) -/
def processProxyRequest (cfg : ServerConfig) (request : ProxyRequest)
    (oracle : FetchOracle) : Except JsError JVal × List FetchCall :=
  if !validateProxyRequest request then
    (.error (.proxy (createProxyError ProxyErrorType.INVALID_REQUEST
      "Invalid proxy request format")), [])
  else
    match request with
    | .plugin p => processPluginRequest cfg p oracle
    | .direct d => processDirectRequest cfg d oracle

/-- Server statistics state (the mutable fields of ApiProxyServer). -/
structure ServerState where
  requestCount : Nat
  errorCount : Nat
  lastRequestTime : Nat
deriving DecidableEq

/-- The response object built inside sendErrorResponse. -/
def errorResponseBody (error : JsError) : JVal :=
  .jobj [("success", .jbool false), ("error", .jstr (errMessage error))]

/-- handleAnyProxyRequest: bump the counters, decode (legacy payloads are
converted to the structured variant first), process, and send exactly one
reply: the success response, or in the catch branch the error response. -/
def handleAnyProxyRequest (cfg : ServerConfig) (s : ServerState)
    (message : ProxyRequestMessage) (oracle : FetchOracle) (now : Nat) :
    (ServerState × List ProxyApiResponseMessage) × List FetchCall :=
  let s1 := { s with requestCount := s.requestCount + 1, lastRequestTime := now }
  let processed :=
    match message with
    | .enhanced _ request _ => processProxyRequest cfg request oracle
    | .legacy _ _ payload _ =>
        processProxyRequest cfg (.plugin (convertLegacyRequest payload)) oracle
  ((match processed.1 with
    | .ok response => (s1, [createProxyResponse message.requestId response now])
    | .error error =>
        ({ s1 with errorCount := s1.errorCount + 1 },
         [createProxyResponse message.requestId (errorResponseBody error) now])),
   processed.2)

/-- The message listener installed by setupMessageListener: drop silently when
a non-empty whitelist rejects the origin, ignore absent or foreign data, and
hand accepted request envelopes to handleAnyProxyRequest. -/
def serverHandleMessage (cfg : ServerConfig) (s : ServerState) (origin : String)
    (data : Option ProxyRequestMessage) (oracle : FetchOracle) (now : Nat) :
    (ServerState × List ProxyApiResponseMessage) × List FetchCall :=
  if cfg.allowedOrigins.length > 0 && !isOriginAllowed origin cfg.allowedOrigins then
    ((s, []), [])
  else
    match data with
    | none => ((s, []), [])
    | some message =>
        if isAnyProxyRequest message then
          handleAnyProxyRequest cfg s message oracle now
        else
          ((s, []), [])

-- =============================================================================
-- ApiProxyClient.ts
-- =============================================================================

/-- Client configuration after mergeClientConfig (defaults resolved). -/
structure ClientConfig where
  defaultTimeout : Nat
  maxRetries : Nat
  retryDelay : Nat

/-- A call as issued by the caller: the legacy entry point makeApiRequest, or
an enhanced ProxyRequest reaching makeEnhancedProxyRequest through the
makePluginRequest / makeDirectRequest wrappers. -/
inductive ClientRequest where
  | legacy : ApiRequest → ClientRequest
  | enhanced : ProxyRequest → ClientRequest

/-- The validation each entry point performs before anything is sent. -/
def validateClientRequest : ClientRequest → Bool
  | .legacy r => validateApiRequest r
  | .enhanced r => validateProxyRequest r

/-- The INVALID_REQUEST message thrown by the entry point for this shape. -/
def invalidRequestMessage : ClientRequest → String
  | .legacy _ => "Invalid API request format"
  | .enhanced (.plugin _) => "Invalid plugin request format"
  | .enhanced (.direct _) => "Invalid direct API request format"

/-- Pending Call Record (PendingRequest in ProxyTypes.ts; the resolve/reject
continuations surface as resolve/reject actions of the machine). -/
structure PendingRequest where
  requestId : RequestId
  startTime : Nat
  retryCount : Nat
  originalRequest : ClientRequest

/-- Timeout Handle (RequestTimeout in ProxyTypes.ts). -/
structure RequestTimeout where
  requestId : RequestId
  timerId : Nat
  startTime : Nat
  timeoutMs : Nat

/-- The closure scheduled by retryRequest for after the retry delay: it holds
the pending record (with the retry count already incremented) and the error
to surface if the iframe is gone.  The source tracks these timers nowhere,
so destroy cannot cancel them. -/
structure RetryWait where
  timerId : Nat
  pending : PendingRequest
  lastError : ProxyErr

/-- JS Map semantics on an association list: set overwrites in place or
appends, delete filters the key out, get finds the entry. -/
def mapSet {α : Type} : List (RequestId × α) → RequestId → α → List (RequestId × α)
  | [], k, v => [(k, v)]
  | (k1, v1) :: rest, k, v =>
      if k1 == k then (k, v) :: rest else (k1, v1) :: mapSet rest k v

def mapDelete {α : Type} (l : List (RequestId × α)) (k : RequestId) :
    List (RequestId × α) :=
  l.filter (fun p => p.1 != k)

def mapGet {α : Type} (l : List (RequestId × α)) (k : RequestId) : Option α :=
  (l.find? (fun p => p.1 == k)).map (fun p => p.2)

/-- The whole mutable state of an ApiProxyClient instance, plus the
environment-held retry closures and the id/timer freshness counters. -/
structure ClientState where
  isInitialized : Bool
  listenerAttached : Bool
  activeIframe : Bool
  pendingRequests : List (RequestId × PendingRequest)
  requestTimeouts : List (RequestId × RequestTimeout)
  retryWaits : List RetryWait
  totalRequests : Nat
  totalErrors : Nat
  responseTimes : List Nat
  lastActivityTime : Nat
  nextRequestId : Nat
  nextTimerId : Nat

/-- Observable effects of one step: a postMessage to the iframe, the
resolution or rejection of a pending caller promise (with the measured
latency on resolution), or a synchronous throw out of an entry point. -/
inductive ClientAction where
  | send : ProxyRequestMessage → ClientAction
  | resolve : RequestId → JVal → Nat → ClientAction
  | reject : RequestId → ProxyErr → ClientAction
  | throwSync : ProxyErr → ClientAction

/-- Events driving the client: the public entry points, inbound messages
matching the response / error guards, and timer firings (by timer identity:
a cancelled timer never fires). -/
inductive ClientEvent where
  | setActiveIframe : ClientEvent
  | clearActiveIframe : ClientEvent
  | issue : ClientRequest → Nat → ClientEvent
  | recvResponse : RequestId → JVal → Nat → ClientEvent
  | recvError : RequestId → String → ClientEvent
  | timeoutFire : Nat → ClientEvent
  | retryFire : Nat → Nat → ClientEvent
  | destroy : ClientEvent

/-- sendRequestToIframe builds the legacy envelope via getEndpointForMethod
(which throws on an unknown method: modelled as none) and createProxyRequest;
sendEnhancedRequestToIframe builds the enhanced envelope unconditionally. -/
def buildClientMessage (requestId : RequestId) : ClientRequest → Nat →
    Option ProxyRequestMessage
  | .legacy request, now =>
      match API_ENDPOINTS request.method with
      | none => none
      | some endpoint => some (.legacy requestId endpoint request now)
  | .enhanced request, now => some (.enhanced requestId request now)

/-- cleanupRequest: drop the pending record and clear + drop the timeout. -/
def cleanupRequest (s : ClientState) (requestId : RequestId) : ClientState :=
  { s with pendingRequests := mapDelete s.pendingRequests requestId
           requestTimeouts := mapDelete s.requestTimeouts requestId }

/-- setupRequestTimeout: arm a fresh timeout for the request. -/
def setupRequestTimeout (cfg : ClientConfig) (s : ClientState)
    (requestId : RequestId) (now : Nat) : ClientState :=
  { s with
    requestTimeouts := mapSet s.requestTimeouts requestId
      { requestId := requestId, timerId := s.nextTimerId, startTime := now
        timeoutMs := cfg.defaultTimeout }
    nextTimerId := s.nextTimerId + 1 }

/-- retryRequest: increment the retry count and schedule the delayed resend
closure (an untracked one-shot timer). -/
def retryRequest (s : ClientState) (pendingRequest : PendingRequest)
    (lastError : ProxyErr) : ClientState :=
  { s with
    retryWaits := s.retryWaits ++
      [{ timerId := s.nextTimerId
         pending := { pendingRequest with retryCount := pendingRequest.retryCount + 1 }
         lastError := lastError }]
    nextTimerId := s.nextTimerId + 1 }

/-- handleRequestError: unknown ids are ignored; otherwise count the error,
clean up, and either schedule a retry (same correlation id) or reject. -/
def handleRequestError (cfg : ClientConfig) (s : ClientState)
    (requestId : RequestId) (error : ProxyErr) : ClientState × List ClientAction :=
  match mapGet s.pendingRequests requestId with
  | none => (s, [])
  | some pendingRequest =>
      let s := { s with totalErrors := s.totalErrors + 1 }
      let s := cleanupRequest s requestId
      if pendingRequest.retryCount < cfg.maxRetries then
        (retryRequest s pendingRequest error, [])
      else
        (s, [.reject requestId error])

/-- handleRequestTimeout: a timeout on a live request becomes a TIMEOUT error. -/
def handleRequestTimeout (cfg : ClientConfig) (s : ClientState)
    (requestId : RequestId) : ClientState × List ClientAction :=
  match mapGet s.pendingRequests requestId with
  | none => (s, [])
  | some _ =>
      handleRequestError cfg s requestId
        (createProxyErrorFor ProxyErrorType.TIMEOUT
          ("Request timeout after " ++ toString cfg.defaultTimeout ++ "ms") requestId)

/-- handleProxyResponse: record the latency in the rolling window (push, then
shift when over 100), clean up, and resolve the caller with the response
envelope, whatever its success flag. -/
def handleProxyResponse (s : ClientState) (requestId : RequestId)
    (response : JVal) (now : Nat) : ClientState × List ClientAction :=
  match mapGet s.pendingRequests requestId with
  | none => (s, [])
  | some pendingRequest =>
      let responseTime := now - pendingRequest.startTime
      let rts := s.responseTimes ++ [responseTime]
      let rts := if rts.length > 100 then rts.drop 1 else rts
      let s := { s with responseTimes := rts }
      let s := cleanupRequest s requestId
      (s, [.resolve requestId response responseTime])

/-- handleProxyError: an inbound error envelope becomes a NETWORK_ERROR fed to
the error path. -/
def handleProxyError (cfg : ClientConfig) (s : ClientState)
    (requestId : RequestId) (errText : String) : ClientState × List ClientAction :=
  handleRequestError cfg s requestId
    (createProxyErrorFor ProxyErrorType.NETWORK_ERROR errText requestId)

/-- One step of the client machine. -/
def clientStep (cfg : ClientConfig) (s : ClientState) :
    ClientEvent → ClientState × List ClientAction
  | .setActiveIframe => ({ s with activeIframe := true }, [])
  | .clearActiveIframe => ({ s with activeIframe := false }, [])
  | .issue request now =>
      if !s.isInitialized then
        (s, [.throwSync (createProxyError ProxyErrorType.INITIALIZATION_ERROR
          "Proxy client not initialized")])
      else if !s.activeIframe then
        (s, [.throwSync (createProxyError ProxyErrorType.NO_ACTIVE_IFRAME
          "No active iframe available for API requests")])
      else if !validateClientRequest request then
        (s, [.throwSync (createProxyError ProxyErrorType.INVALID_REQUEST
          (invalidRequestMessage request))])
      else
        let requestId := s.nextRequestId
        let s := { s with
          nextRequestId := s.nextRequestId + 1
          totalRequests := s.totalRequests + 1
          lastActivityTime := now }
        let pendingRequest : PendingRequest :=
          { requestId := requestId, startTime := now, retryCount := 0
            originalRequest := request }
        let s := { s with pendingRequests := mapSet s.pendingRequests requestId pendingRequest }
        let s := setupRequestTimeout cfg s requestId now
        match buildClientMessage requestId request now with
        | some msg => (s, [.send msg])
        | none =>
            -- getEndpointForMethod threw inside the promise executor: the
            -- catch cleans up and rejects the fresh promise with the plain
            -- Error (unreachable once validation passed).
            (cleanupRequest s requestId,
             [.reject requestId (createProxyError ProxyErrorType.UNKNOWN_ERROR
               "Unknown API method")])
  | .recvResponse requestId response now =>
      if !s.listenerAttached then (s, [])
      else if !jsTruthy response then (s, [])
      else handleProxyResponse s requestId response now
  | .recvError requestId errText =>
      if !s.listenerAttached then (s, [])
      else if errText = "" then (s, [])
      else handleProxyError cfg s requestId errText
  | .timeoutFire timerId =>
      match s.requestTimeouts.find? (fun p => p.2.timerId == timerId) with
      | none => (s, [])
      | some p => handleRequestTimeout cfg s p.2.requestId
  | .retryFire timerId now =>
      match s.retryWaits.find? (fun w => w.timerId == timerId) with
      | none => (s, [])
      | some w =>
          let s := { s with retryWaits := s.retryWaits.filter (fun w2 => w2.timerId != timerId) }
          if s.activeIframe then
            let s := { s with
              pendingRequests := mapSet s.pendingRequests w.pending.requestId w.pending }
            let s := setupRequestTimeout cfg s w.pending.requestId now
            match buildClientMessage w.pending.requestId w.pending.originalRequest now with
            | some msg => (s, [.send msg])
            | none => (s, [])
          else
            (s, [.reject w.pending.requestId w.lastError])
  | .destroy =>
      let rejects := s.pendingRequests.map fun p =>
        ClientAction.reject p.1
          (createProxyError ProxyErrorType.INITIALIZATION_ERROR "Proxy client destroyed")
      ({ s with
          pendingRequests := []
          requestTimeouts := []
          listenerAttached := false
          activeIframe := false
          isInitialized := false },
       rejects)

/-- Run a list of events, accumulating the emitted actions in order. -/
def clientRun (cfg : ClientConfig) (s : ClientState) :
    List ClientEvent → ClientState × List ClientAction
  | [] => (s, [])
  | e :: es =>
      let step := clientStep cfg s e
      let rest := clientRun cfg step.1 es
      (rest.1, step.2 ++ rest.2)

/-- State right after construction (initialize ran: listener attached). -/
def initialClientState : ClientState :=
  { isInitialized := true, listenerAttached := true, activeIframe := false
    pendingRequests := [], requestTimeouts := [], retryWaits := []
    totalRequests := 0, totalErrors := 0, responseTimes := [], lastActivityTime := 0
    nextRequestId := 0, nextTimerId := 0 }

/-- State after construction followed by setActiveIframe. -/
def readyState : ClientState :=
  { initialClientState with activeIframe := true }

/-- Status snapshot shape (ProxyClientStatus). -/
structure ProxyClientStatus where
  isInitialized : Bool
  activeIframeCount : Nat
  pendingRequestCount : Nat
  totalRequestCount : Nat
  errorCount : Nat
  averageResponseTime : Nat
  lastActivityTime : Nat
deriving DecidableEq

/-- Math.round of sum/len for nonnegative arguments: floor(sum/len + 1/2). -/
def jsRoundDiv (sum len : Nat) : Nat :=
  (2 * sum + len) / (2 * len)

/-- getStatus from ApiProxyClient.ts. -/
def clientGetStatus (s : ClientState) : ProxyClientStatus :=
  let averageResponseTime :=
    if s.responseTimes.length > 0 then
      jsRoundDiv (s.responseTimes.foldl (fun sum time => sum + time) 0)
        s.responseTimes.length
    else 0
  { isInitialized := s.isInitialized
    activeIframeCount := if s.activeIframe then 1 else 0
    pendingRequestCount := s.pendingRequests.length
    totalRequestCount := s.totalRequests
    errorCount := s.totalErrors
    averageResponseTime := averageResponseTime
    lastActivityTime := s.lastActivityTime }

-- =============================================================================
-- Claims
-- =============================================================================

/-- The ProxyRequest a given inbound message reduces to before processing
(enhanced messages carry it; legacy messages are converted first). -/
def decodedProxyRequest : ProxyRequestMessage → ProxyRequest
  | .enhanced _ request _ => request
  | .legacy _ _ payload _ => .plugin (convertLegacyRequest payload)

/-- C5: convertLegacyRequest is a pure function returning a PluginRequest
(the plugin-tagged variant) preserving method, userId and communityId, whose
params field is present exactly when the input params field is defined and
then equals it, and likewise for signature; absent optionals stay absent. -/
theorem C5_convertLegacyRequest_lossless (r : ApiRequest) :
    (convertLegacyRequest r).method = r.method ∧
    (convertLegacyRequest r).userId = r.userId ∧
    (convertLegacyRequest r).communityId = r.communityId ∧
    (convertLegacyRequest r).params = r.params ∧
    (convertLegacyRequest r).signature = r.signature := by
  unfold convertLegacyRequest
  cases hp : r.params <;> cases hs : r.signature <;> simp [hp, hs]

/-- The getUserInfo payload used by the legacy / enhanced equivalence claim. -/
def c4Payload : ApiRequest :=
  { method := "getUserInfo", params := none, userId := "u1", communityId := "c1"
    signature := none }

def c4Plugin : PluginRequest :=
  { method := "getUserInfo", params := none, userId := "u1", communityId := "c1"
    signature := none }

/-- C4: a legacy-format getUserInfo request for u1/c1 and the enhanced
structured equivalent make the server issue identical outbound fetch calls:
one call to baseUrl ++ /api/user, POST, same headers, byte-identical JSON
body. -/
theorem C4_legacy_enhanced_equivalence (cfg : ServerConfig) (s : ServerState)
    (oracle : FetchOracle) (now rid tsL tsE : Nat) :
    (handleAnyProxyRequest cfg s (.legacy rid "/api/user" c4Payload tsL) oracle now).2 =
      (handleAnyProxyRequest cfg s (.enhanced rid (.plugin c4Plugin) tsE) oracle now).2 ∧
    (handleAnyProxyRequest cfg s (.legacy rid "/api/user" c4Payload tsL) oracle now).2 =
      [{ url := cfg.baseUrl ++ "/api/user"
         method := "POST"
         headers := objMergeList [("Content-Type", "application/json")] cfg.headers
         body := some "\x7b\"method\":\"getUserInfo\",\"userId\":\"u1\",\"communityId\":\"c1\"\x7d"
         timeoutMs := if cfg.timeout > 0 then some cfg.timeout else none }] := by
  constructor <;> rfl

/-- C2: for every accepted inbound request the Responder emits exactly one
outbound message carrying the same correlation id, a response-kind envelope;
it is the success response when processing succeeds and the catch-branch
error response otherwise, and the handler is total (no exception escapes). -/
theorem C2_exactly_one_terminal_reply (cfg : ServerConfig) (s : ServerState)
    (m : ProxyRequestMessage) (oracle : FetchOracle) (now : Nat) :
    ((handleAnyProxyRequest cfg s m oracle now).1.2).length = 1 ∧
    ((handleAnyProxyRequest cfg s m oracle now).1.2).all
      (fun o => o.requestId == m.requestId &&
        (o.mtype == MessageType.proxyApiResponse)) = true ∧
    (handleAnyProxyRequest cfg s m oracle now).1.2 =
      [createProxyResponse m.requestId
        (match (processProxyRequest cfg (decodedProxyRequest m) oracle).1 with
         | .ok r => r
         | .error e => errorResponseBody e) now] := by
  cases m with
  | legacy rid ep payload ts =>
      simp only [handleAnyProxyRequest, decodedProxyRequest,
        ProxyRequestMessage.requestId]
      rcases h : (processProxyRequest cfg (.plugin (convertLegacyRequest payload)) oracle).1 with r | e <;>
        simp [h, createProxyResponse]
  | enhanced rid request ts =>
      simp only [handleAnyProxyRequest, decodedProxyRequest,
        ProxyRequestMessage.requestId]
      rcases h : (processProxyRequest cfg request oracle).1 with r | e <;>
        simp [h, createProxyResponse]

/-- API_ENDPOINTS and the inline table of getEndpointForPluginMethod are the
same mapping (the source duplicates the table verbatim). -/
theorem API_ENDPOINTS_eq_methodToEndpoint : API_ENDPOINTS = methodToEndpoint := rfl

/-- C6: a structured plugin request whose method is not in the
method-to-endpoint table makes the Responder reply with the INVALID_REQUEST
error built during validation and issue zero outbound network calls. -/
theorem C6_unknown_method_no_fetch (cfg : ServerConfig) (s : ServerState)
    (oracle : FetchOracle) (now rid ts : Nat) (p : PluginRequest)
    (h : methodToEndpoint p.method = none) :
    (handleAnyProxyRequest cfg s (.enhanced rid (.plugin p) ts) oracle now).2 = [] ∧
    (processProxyRequest cfg (.plugin p) oracle).1 =
      .error (.proxy (createProxyError ProxyErrorType.INVALID_REQUEST
        "Invalid proxy request format")) ∧
    (handleAnyProxyRequest cfg s (.enhanced rid (.plugin p) ts) oracle now).1.2 =
      [createProxyResponse rid
        (errorResponseBody (.proxy (createProxyError ProxyErrorType.INVALID_REQUEST
          "Invalid proxy request format"))) now] := by
  have hv : validatePluginRequest p = false := by
    have hA : API_ENDPOINTS p.method = none := by
      rw [API_ENDPOINTS_eq_methodToEndpoint]; exact h
    simp [validatePluginRequest, hA]
  have hp : processProxyRequest cfg (.plugin p) oracle =
      (.error (.proxy (createProxyError ProxyErrorType.INVALID_REQUEST
        "Invalid proxy request format")), []) := by
    simp [processProxyRequest, validateProxyRequest, hv]
  refine ⟨?_, ?_, ?_⟩
  · simp [handleAnyProxyRequest, hp]
  · simp [hp]
  · simp [handleAnyProxyRequest, hp, ProxyRequestMessage.requestId]

/-- A server configuration used by concrete witnesses. -/
def demoServerConfig : ServerConfig :=
  { baseUrl := "https://host.example", timeout := 30000, headers := []
    allowedOrigins := [] }

/-- A server state used by concrete witnesses. -/
def demoServerState : ServerState :=
  { requestCount := 0, errorCount := 0, lastRequestTime := 0 }

/-- A fetch oracle whose every call fails, used by concrete witnesses. -/
def demoOracle : FetchOracle := fun _ => .threw "no network"

/-- The doesNotExist plugin request of the unknown-method claim. -/
def doesNotExistRequest : PluginRequest :=
  { method := "doesNotExist", params := none, userId := "u1", communityId := "c1"
    signature := none }

/-- Closed witness for C6 at the concrete method doesNotExist. -/
theorem C6_unknown_method_no_fetch_witness :
    (handleAnyProxyRequest demoServerConfig demoServerState
      (.enhanced 7 (.plugin doesNotExistRequest) 1) demoOracle 2).2 = [] ∧
    (processProxyRequest demoServerConfig (.plugin doesNotExistRequest) demoOracle).1 =
      .error (.proxy (createProxyError ProxyErrorType.INVALID_REQUEST
        "Invalid proxy request format")) ∧
    (handleAnyProxyRequest demoServerConfig demoServerState
      (.enhanced 7 (.plugin doesNotExistRequest) 1) demoOracle 2).1.2 =
      [createProxyResponse 7
        (errorResponseBody (.proxy (createProxyError ProxyErrorType.INVALID_REQUEST
          "Invalid proxy request format"))) 2] :=
  C6_unknown_method_no_fetch demoServerConfig demoServerState demoOracle 2 7 1
    doesNotExistRequest rfl

/-- C3: an empty whitelist allows every origin, and with a non-empty whitelist
a message whose origin is neither an exact member nor matched by the anchored
regex of a wildcard entry is dropped: no reply, no fetch, no state change. -/
theorem C3_origin_enforcement :
    (∀ origin : String, isOriginAllowed origin [] = true) ∧
    ∀ (cfg : ServerConfig) (s : ServerState) (origin : String)
      (data : Option ProxyRequestMessage) (oracle : FetchOracle) (now : Nat),
      cfg.allowedOrigins ≠ [] →
      origin ∉ cfg.allowedOrigins →
      (∀ p ∈ cfg.allowedOrigins, p.data.contains '*' = true →
        rmatch (compilePattern p) origin.data = false) →
      serverHandleMessage cfg s origin data oracle now = ((s, []), []) := by
  constructor
  · intro origin
    simp [isOriginAllowed]
  · intro cfg s origin data oracle now hne hmem hpat
    have hallow : isOriginAllowed origin cfg.allowedOrigins = false := by
      unfold isOriginAllowed
      rw [if_neg, if_neg]
      · rw [List.any_eq_false]
        intro p hp
        rcases hw : p.data.contains '*' with _ | _
        · simp [hw]
        · simp only [hw, if_true]
          simp [hpat p hp hw]
      · simpa using hmem
      · simpa [List.isEmpty_iff] using hne
    have hlen : 0 < cfg.allowedOrigins.length := List.length_pos.mpr hne
    unfold serverHandleMessage
    rw [if_pos]
    simp [hallow, hlen]

/-- Server configuration with a one-entry origin whitelist. -/
def whitelistConfig : ServerConfig :=
  { demoServerConfig with allowedOrigins := ["https://a.example"] }

/-- Closed witness for C3: the whitelist with one entry drops a non-member. -/
theorem C3_origin_enforcement_witness :
    whitelistConfig.allowedOrigins ≠ [] ∧
    serverHandleMessage whitelistConfig demoServerState "https://b.example"
      (some (.enhanced 3 (.plugin doesNotExistRequest) 0)) demoOracle 4 =
      ((demoServerState, []), []) := by
  refine ⟨by decide, ?_⟩
  exact C3_origin_enforcement.2 whitelistConfig
    demoServerState "https://b.example"
    (some (.enhanced 3 (.plugin doesNotExistRequest) 0)) demoOracle 4
    (by decide) (by decide) (by decide)

/-- C10: every server failure is sent back as a response-kind envelope with
success false and the failure message in the error field (the Responder never
emits an error-kind message), and on the client a success=false response
resolves the pending call instead of feeding the retry machinery. -/
theorem C10_failures_resolve_as_responses :
    (∀ (cfg : ServerConfig) (s : ServerState) (m : ProxyRequestMessage)
       (oracle : FetchOracle) (now : Nat),
      ((handleAnyProxyRequest cfg s m oracle now).1.2).all
        (fun o => o.mtype == MessageType.proxyApiResponse) = true) ∧
    (∀ (cfg : ServerConfig) (s : ServerState) (m : ProxyRequestMessage)
       (oracle : FetchOracle) (now : Nat) (e : JsError),
      (processProxyRequest cfg (decodedProxyRequest m) oracle).1 = .error e →
      (handleAnyProxyRequest cfg s m oracle now).1.2 =
        [createProxyResponse m.requestId
          (.jobj [("success", .jbool false), ("error", .jstr (errMessage e))]) now]) ∧
    (∀ (cfg : ClientConfig) (s : ClientState) (rid : RequestId) (resp : JVal)
       (now : Nat) (p : PendingRequest),
      mapGet s.pendingRequests rid = some p →
      s.listenerAttached = true →
      jGet resp "success" = some (.jbool false) →
      (clientStep cfg s (.recvResponse rid resp now)).2 =
        [.resolve rid resp (now - p.startTime)] ∧
      (clientStep cfg s (.recvResponse rid resp now)).1.totalErrors = s.totalErrors ∧
      (clientStep cfg s (.recvResponse rid resp now)).1.retryWaits = s.retryWaits) := by
  refine ⟨?_, ?_, ?_⟩
  · intro cfg s m oracle now
    have h := (C2_exactly_one_terminal_reply cfg s m oracle now).2.2
    rw [h]
    simp [createProxyResponse]
  · intro cfg s m oracle now e he
    have h := (C2_exactly_one_terminal_reply cfg s m oracle now).2.2
    rw [h, he]
    rfl
  · intro cfg s rid resp now p hp hl hsucc
    have htruthy : jsTruthy resp = true := by
      cases resp <;> simp_all [jGet, jsTruthy]
    simp [clientStep, hl, htruthy, handleProxyResponse, hp, cleanupRequest]

/-- A client configuration with the default values, for concrete runs. -/
def demoClientConfig : ClientConfig :=
  { defaultTimeout := 10000, maxRetries := 3, retryDelay := 1000 }

/-- A pending record for correlation id 0, issued at time 4. -/
def demoPending : PendingRequest :=
  { requestId := 0, startTime := 4, retryCount := 0
    originalRequest := .legacy c4Payload }

/-- A ready client holding the one pending call demoPending. -/
def demoPendingState : ClientState :=
  { readyState with pendingRequests := [(0, demoPending)] }

/-- Closed witness for C10: a server processing error at a concrete input
comes back with success false, and a concrete client with one pending call
resolves a success=false response without touching the retry machinery. -/
theorem C10_failures_resolve_as_responses_witness :
    (handleAnyProxyRequest demoServerConfig demoServerState
      (.enhanced 7 (.plugin doesNotExistRequest) 1) demoOracle 2).1.2 =
      [createProxyResponse 7
        (.jobj [("success", .jbool false),
                ("error", .jstr "Invalid proxy request format")]) 2] ∧
    (clientStep demoClientConfig demoPendingState
      (.recvResponse 0 (.jobj [("success", .jbool false)]) 9)).2 =
      [.resolve 0 (.jobj [("success", .jbool false)]) 5] := by
  constructor
  · exact (C10_failures_resolve_as_responses.2.1 demoServerConfig demoServerState
      (.enhanced 7 (.plugin doesNotExistRequest) 1) demoOracle 2
      (.proxy (createProxyError ProxyErrorType.INVALID_REQUEST
        "Invalid proxy request format")) (by rfl))
  · exact (C10_failures_resolve_as_responses.2.2 demoClientConfig demoPendingState
      0 (.jobj [("success", .jbool false)]) 9 demoPending
      (by rfl) (by rfl) (by rfl)).1

/-- Setting a key makes lookup of that key return the new value. -/
theorem headerLookup_objSet_self (l : List (String × String)) (k v : String) :
    headerLookup k (objSet l k v) = some v := by
  induction l with
  | nil => simp [objSet, headerLookup]
  | cons hd tl ih =>
      obtain ⟨k1, v1⟩ := hd
      by_cases hk : k1 = k <;> simp [objSet, headerLookup, hk, ih]

/-- Setting another key leaves lookup of this key unchanged. -/
theorem headerLookup_objSet_ne (l : List (String × String)) (k k' v' : String)
    (h : k' ≠ k) : headerLookup k (objSet l k' v') = headerLookup k l := by
  induction l with
  | nil => simp [objSet, headerLookup, h]
  | cons hd tl ih =>
      obtain ⟨k1, v1⟩ := hd
      by_cases hk : k1 = k' <;> by_cases hk2 : k1 = k <;>
        simp_all [objSet, headerLookup]

theorem objMergeList_cons (base : List (String × String)) (hd : String × String)
    (tl : List (String × String)) :
    objMergeList base (hd :: tl) = objMergeList (objSet base hd.1 hd.2) tl := rfl

/-- Spreading an object none of whose keys is k leaves lookup of k alone. -/
theorem headerLookup_objMergeList_not_mem (base extra : List (String × String))
    (k : String) (h : ∀ p ∈ extra, p.1 ≠ k) :
    headerLookup k (objMergeList base extra) = headerLookup k base := by
  induction extra generalizing base with
  | nil => rfl
  | cons hd tl ih =>
      rw [objMergeList_cons,
        ih (objSet base hd.1 hd.2) (fun p hp => h p (List.mem_cons_of_mem hd hp)),
        headerLookup_objSet_ne base k hd.1 hd.2 (h hd (List.mem_cons_self hd tl))]

/-- Spreading an object with unique keys containing (k, v) makes lookup of k
return v: the spread value overrides whatever the base object had. -/
theorem headerLookup_objMergeList_mem (base extra : List (String × String))
    (k v : String) (hnd : (extra.map Prod.fst).Nodup) (hmem : (k, v) ∈ extra) :
    headerLookup k (objMergeList base extra) = some v := by
  induction extra generalizing base with
  | nil => cases hmem
  | cons hd tl ih =>
      simp only [List.map_cons, List.nodup_cons] at hnd
      rcases List.mem_cons.mp hmem with heq | hmem'
      · subst heq
        have h' : ∀ p ∈ tl, p.1 ≠ k :=
          fun p hp hpk => hnd.1 ((List.mem_map).mpr ⟨p, hp, hpk⟩)
        rw [objMergeList_cons]
        exact (headerLookup_objMergeList_not_mem (objSet base k v) tl k h').trans
          (headerLookup_objSet_self base k v)
      · rw [objMergeList_cons]
        exact ih (objSet base hd.1 hd.2) hnd.2 hmem'

/-- The server configuration of the header-precedence counterexample: it
carries its own Authorization default header. -/
def c9Config : ServerConfig :=
  { baseUrl := "https://host.example", timeout := 30000
    headers := [("Authorization", "cfg-auth")], allowedOrigins := [] }

/-- A getUserCommunities payload carrying the session token tok. -/
def c9Payload : ApiRequest :=
  { method := "getUserCommunities", params := some [("sessionToken", .jstr "tok")]
    userId := "u1", communityId := "c1", signature := none }

/-- C9 counterexample: for the /api/communities call the call-specific logic
sets Authorization to Bearer tok, but with a configured Authorization default
header the outbound call carries the configured value, not the call-specific
one — the configured defaults are spread over, not under, the call-specific
headers. -/
theorem C9_counterexample_config_wins :
    headerLookup "Authorization"
      (buildRequestOptions c9Config "/api/communities" c9Payload).headers =
      some "cfg-auth" ∧
    ("cfg-auth" : String) ≠ "Bearer " ++ jsTemplate (sessionTokenOf c9Payload) := by
  constructor
  · rfl
  · decide

/-- C9 amended: in makeApiRequest the configured default headers are merged
over the call-specific headers for both special endpoints: a key present in
the configured headers (with unique keys) takes its configured value in the
outbound call, even when the call-specific logic also sets it. -/
theorem C9_config_headers_merged_over (cfg : ServerConfig) (payload : ApiRequest)
    (k v : String) (hnd : (cfg.headers.map Prod.fst).Nodup)
    (hmem : (k, v) ∈ cfg.headers) :
    headerLookup k (buildRequestOptions cfg "/api/communities" payload).headers =
      some v ∧
    headerLookup k
      (buildRequestOptions cfg "/api/auth/validate-session" payload).headers =
      some v := by
  unfold buildRequestOptions
  rw [if_pos rfl, if_neg (by decide), if_pos rfl]
  exact ⟨headerLookup_objMergeList_mem _ _ k v hnd hmem,
    headerLookup_objMergeList_mem _ _ k v hnd hmem⟩

/-- Closed witness for the amended C9 at the counterexample configuration. -/
theorem C9_config_headers_merged_over_witness :
    (c9Config.headers.map Prod.fst).Nodup ∧
    ("Authorization", "cfg-auth") ∈ c9Config.headers ∧
    headerLookup "Authorization"
      (buildRequestOptions c9Config "/api/communities" c9Payload).headers =
      some "cfg-auth" ∧
    headerLookup "Authorization"
      (buildRequestOptions c9Config "/api/auth/validate-session" c9Payload).headers =
      some "cfg-auth" := by
  refine ⟨by decide, by decide, ?_⟩
  exact C9_config_headers_merged_over c9Config c9Payload "Authorization" "cfg-auth"
    (by decide) (by decide)

/-- The destroyed-condition error destroy rejects pending calls with. -/
def destroyedError : ProxyErr :=
  createProxyError ProxyErrorType.INITIALIZATION_ERROR "Proxy client destroyed"

/-- C8 counterexample: issue a call at time 0, let its timeout fire (the call
enters its retry-delay window, so the caller's promise is still pending), then
destroy.  Destroy rejects nothing (the call is not in the pending map), and
the untracked retry-delay timer armed before destroy still fires afterwards,
rejecting the call with the TIMEOUT error instead of the destroyed condition
— refuting both the every-pending-call-rejected-destroyed part and the
no-timer-fires-afterward part of the claim. -/
theorem C8_counterexample_retry_timer_survives :
    ((clientRun demoClientConfig readyState
      [.issue (.legacy c4Payload) 0, .timeoutFire 0]).1.retryWaits).length = 1 ∧
    (clientStep demoClientConfig
      (clientRun demoClientConfig readyState
        [.issue (.legacy c4Payload) 0, .timeoutFire 0]).1 .destroy).2 = [] ∧
    (clientStep demoClientConfig
      (clientStep demoClientConfig
        (clientRun demoClientConfig readyState
          [.issue (.legacy c4Payload) 0, .timeoutFire 0]).1 .destroy).1
      (.retryFire 1 5)).2 =
      [.reject 0 (createProxyErrorFor ProxyErrorType.TIMEOUT
        "Request timeout after 10000ms" 0)] :=
  ⟨rfl, rfl, rfl⟩

/-- C8 amended: destroy rejects every call in the pending map with the
destroyed condition, clears every tracked timeout handle, detaches the
listener, clears the iframe handle, and is idempotent; armed timeout timers
never fire afterwards.  The retry-delay timers are untracked, survive destroy
unchanged, and when one fires afterwards it rejects its call with the last
transient error. -/
theorem C8_destroy_behaviour (cfg : ClientConfig) (s : ClientState) :
    (clientStep cfg s .destroy).2 =
      s.pendingRequests.map (fun p => ClientAction.reject p.1 destroyedError) ∧
    (clientStep cfg s .destroy).1.pendingRequests = [] ∧
    (clientStep cfg s .destroy).1.requestTimeouts = [] ∧
    (clientStep cfg s .destroy).1.activeIframe = false ∧
    (clientStep cfg s .destroy).1.listenerAttached = false ∧
    (clientStep cfg s .destroy).1.isInitialized = false ∧
    clientStep cfg (clientStep cfg s .destroy).1 .destroy =
      ((clientStep cfg s .destroy).1, []) ∧
    (∀ tid : Nat, clientStep cfg (clientStep cfg s .destroy).1 (.timeoutFire tid) =
      ((clientStep cfg s .destroy).1, [])) ∧
    (clientStep cfg s .destroy).1.retryWaits = s.retryWaits ∧
    (∀ (tid now : Nat) (w : RetryWait),
      s.retryWaits.find? (fun w2 => w2.timerId == tid) = some w →
      (clientStep cfg (clientStep cfg s .destroy).1 (.retryFire tid now)).2 =
        [.reject w.pending.requestId w.lastError]) := by
  refine ⟨rfl, rfl, rfl, rfl, rfl, rfl, rfl, fun tid => rfl, rfl, ?_⟩
  intro tid now w hw
  simp [clientStep, hw]

/-- A retry-delay closure for demoPending after one failed attempt. -/
def demoRetryWait : RetryWait :=
  { timerId := 1
    pending := { demoPending with retryCount := 1 }
    lastError := createProxyErrorFor ProxyErrorType.TIMEOUT
      "Request timeout after 10000ms" 0 }

/-- A ready client with one pending call and one retry-delay closure. -/
def demoDestroyState : ClientState :=
  { readyState with
      pendingRequests := [(7, demoPending)]
      retryWaits := [demoRetryWait] }

/-- Closed witness for the amended C8 at a concrete client state. -/
theorem C8_destroy_behaviour_witness :
    (clientStep demoClientConfig demoDestroyState .destroy).2 =
      [ClientAction.reject 7 destroyedError] ∧
    clientStep demoClientConfig
      (clientStep demoClientConfig demoDestroyState .destroy).1 .destroy =
      ((clientStep demoClientConfig demoDestroyState .destroy).1, []) ∧
    (clientStep demoClientConfig
      (clientStep demoClientConfig demoDestroyState .destroy).1
      (.timeoutFire 0)) =
      ((clientStep demoClientConfig demoDestroyState .destroy).1, []) ∧
    (clientStep demoClientConfig
      (clientStep demoClientConfig demoDestroyState .destroy).1
      (.retryFire 1 99)).2 =
      [.reject demoRetryWait.pending.requestId demoRetryWait.lastError] := by
  have h := C8_destroy_behaviour demoClientConfig demoDestroyState
  exact ⟨h.1, h.2.2.2.2.2.2.1, h.2.2.2.2.2.2.2.1 0,
    h.2.2.2.2.2.2.2.2.2 1 99 demoRetryWait rfl⟩

/-- How one attempt of a call can fail: its timeout fires, or an error
envelope for its correlation id arrives. -/
inductive FailKind where
  | timeout : FailKind
  | errEnvelope : String → FailKind

/-- An error envelope is only dispatched when its error text is truthy. -/
def failKindWf : FailKind → Bool
  | .timeout => true
  | .errEnvelope t => t ≠ ""

/-- The ProxyError handleRequestError receives for this failure kind. -/
def failErr (cfg : ClientConfig) (rid : RequestId) : FailKind → ProxyErr
  | .timeout => createProxyErrorFor ProxyErrorType.TIMEOUT
      ("Request timeout after " ++ toString cfg.defaultTimeout ++ "ms") rid
  | .errEnvelope t => createProxyErrorFor ProxyErrorType.NETWORK_ERROR t rid

/-- The event realising this failure kind against the flight state after r
completed retry cycles (whose armed timeout carries timer id 2r). -/
def failEvent (rid : RequestId) (r : Nat) : FailKind → ClientEvent
  | .timeout => .timeoutFire (2 * r)
  | .errEnvelope t => .recvError rid t

/-- The pending record of the only call, after r failed attempts. -/
def flightPending (req : ClientRequest) (r : Nat) : PendingRequest :=
  { requestId := 0, startTime := 0, retryCount := r, originalRequest := req }

/-- The timeout handle armed for attempt r + 1 (timer ids grow by two per
cycle: one timeout timer and one retry-delay timer). -/
def flightTimeout (cfg : ClientConfig) (r : Nat) : RequestTimeout :=
  { requestId := 0, timerId := 2 * r, startTime := 0, timeoutMs := cfg.defaultTimeout }

/-- The retry-delay closure scheduled after attempt r + 1 failed with kind k. -/
def flightRetryWait (cfg : ClientConfig) (req : ClientRequest) (r : Nat)
    (k : FailKind) : RetryWait :=
  { timerId := 2 * r + 1, pending := flightPending req (r + 1)
    lastError := failErr cfg 0 k }

/-- The client state while attempt r + 1 of the only call (correlation id 0,
issued at time 0 from readyState) is in flight and every earlier attempt
failed: the pending record keeps its identity and start time, only the retry
count and the armed timer differ. -/
def flightState (cfg : ClientConfig) (req : ClientRequest) (r : Nat) : ClientState :=
  { isInitialized := true, listenerAttached := true, activeIframe := true
    pendingRequests := [(0, flightPending req r)]
    requestTimeouts := [(0, flightTimeout cfg r)]
    retryWaits := []
    totalRequests := 1, totalErrors := r, responseTimes := [], lastActivityTime := 0
    nextRequestId := 1, nextTimerId := 2 * r + 1 }

/-- The client state during the retry delay after attempt r + 1 failed with
kind k: nothing pending, one scheduled retry closure. -/
def waitState (cfg : ClientConfig) (req : ClientRequest) (r : Nat) (k : FailKind) :
    ClientState :=
  { isInitialized := true, listenerAttached := true, activeIframe := true
    pendingRequests := [], requestTimeouts := []
    retryWaits := [flightRetryWait cfg req r k]
    totalRequests := 1, totalErrors := r + 1, responseTimes := [], lastActivityTime := 0
    nextRequestId := 1, nextTimerId := 2 * r + 2 }

/-- The client state after the call failed terminally at attempt r + 1. -/
def doneState (cfg : ClientConfig) (req : ClientRequest) (r : Nat) : ClientState :=
  { isInitialized := true, listenerAttached := true, activeIframe := true
    pendingRequests := [], requestTimeouts := [], retryWaits := []
    totalRequests := 1, totalErrors := r + 1, responseTimes := [], lastActivityTime := 0
    nextRequestId := 1, nextTimerId := 2 * r + 1 }

theorem issue_step (cfg : ClientConfig) (req : ClientRequest)
    (msg : ProxyRequestMessage) (hv : validateClientRequest req = true)
    (hm : buildClientMessage 0 req 0 = some msg) :
    clientStep cfg readyState (.issue req 0) = (flightState cfg req 0, [.send msg]) := by
  simp [clientStep, readyState, initialClientState, hv, hm, flightState,
    flightPending, flightTimeout, setupRequestTimeout, mapSet]

theorem fail_step_retry (cfg : ClientConfig) (req : ClientRequest) (r : Nat)
    (k : FailKind) (hr : r < cfg.maxRetries) (hk : failKindWf k = true) :
    clientStep cfg (flightState cfg req r) (failEvent 0 r k) =
      (waitState cfg req r k, []) := by
  cases k with
  | timeout =>
      simp [clientStep, failEvent, flightState, waitState, flightPending,
        flightTimeout, flightRetryWait, handleRequestTimeout,
        handleRequestError, handleProxyError, cleanupRequest, retryRequest,
        mapGet, mapDelete, failErr, hr]
  | errEnvelope t =>
      have ht : ¬(t = "") := by simpa [failKindWf] using hk
      simp [clientStep, failEvent, flightState, waitState, flightPending,
        flightTimeout, flightRetryWait, handleRequestTimeout,
        handleRequestError, handleProxyError, cleanupRequest, retryRequest,
        mapGet, mapDelete, failErr, hr, ht]

theorem retry_step (cfg : ClientConfig) (req : ClientRequest) (r : Nat)
    (k : FailKind) (msg : ProxyRequestMessage)
    (hm : buildClientMessage 0 req 0 = some msg) :
    clientStep cfg (waitState cfg req r k) (.retryFire (2 * r + 1) 0) =
      (flightState cfg req (r + 1), [.send msg]) := by
  simp [clientStep, waitState, flightState, flightPending, flightTimeout,
    flightRetryWait, setupRequestTimeout, mapSet, hm, Nat.mul_succ]

theorem fail_step_terminal (cfg : ClientConfig) (req : ClientRequest) (r : Nat)
    (k : FailKind) (hr : ¬r < cfg.maxRetries) (hk : failKindWf k = true) :
    clientStep cfg (flightState cfg req r) (failEvent 0 r k) =
      (doneState cfg req r, [.reject 0 (failErr cfg 0 k)]) := by
  cases k with
  | timeout =>
      simp [clientStep, failEvent, flightState, doneState, flightPending,
        flightTimeout, handleRequestTimeout, handleRequestError,
        handleProxyError, cleanupRequest, mapGet, mapDelete, failErr, hr]
  | errEnvelope t =>
      have ht : ¬(t = "") := by simpa [failKindWf] using hk
      simp [clientStep, failEvent, flightState, doneState, flightPending,
        flightTimeout, handleRequestTimeout, handleRequestError,
        handleProxyError, cleanupRequest, mapGet, mapDelete, failErr, hr, ht]

/-- The events of the first ks.length failed attempts: each attempt fails with
its kind and the retry-delay timer then fires (all at simulated time 0). -/
def cyclesEvents (rid : RequestId) : Nat → List FailKind → List ClientEvent
  | _, [] => []
  | r, k :: ks =>
      failEvent rid r k :: .retryFire (2 * r + 1) 0 :: cyclesEvents rid (r + 1) ks

theorem clientRun_cons (cfg : ClientConfig) (s : ClientState) (e : ClientEvent)
    (es : List ClientEvent) :
    clientRun cfg s (e :: es) =
      ((clientRun cfg (clientStep cfg s e).1 es).1,
        (clientStep cfg s e).2 ++ (clientRun cfg (clientStep cfg s e).1 es).2) := rfl

theorem clientRun_append (cfg : ClientConfig) (s : ClientState)
    (l1 l2 : List ClientEvent) :
    clientRun cfg s (l1 ++ l2) =
      ((clientRun cfg (clientRun cfg s l1).1 l2).1,
        (clientRun cfg s l1).2 ++ (clientRun cfg (clientRun cfg s l1).1 l2).2) := by
  induction l1 generalizing s with
  | nil => simp [clientRun]
  | cons e es ih =>
      simp only [List.cons_append, clientRun_cons, ih, List.append_assoc]

theorem cycles_run (cfg : ClientConfig) (req : ClientRequest)
    (msg : ProxyRequestMessage) (hm : buildClientMessage 0 req 0 = some msg) :
    ∀ (ks : List FailKind) (r : Nat), (∀ k ∈ ks, failKindWf k = true) →
      r + ks.length ≤ cfg.maxRetries →
      clientRun cfg (flightState cfg req r) (cyclesEvents 0 r ks) =
        (flightState cfg req (r + ks.length),
          List.replicate ks.length (.send msg)) := by
  intro ks
  induction ks with
  | nil => intro r _ _; simp [cyclesEvents, clientRun]
  | cons k ks ih =>
      intro r hwf hle
      have hr : r < cfg.maxRetries := by
        simp only [List.length_cons] at hle; omega
      have h1 := fail_step_retry cfg req r k hr (hwf k (List.mem_cons_self k ks))
      have h2 := retry_step cfg req r k msg hm
      have h3 := ih (r + 1) (fun k2 hk2 => hwf k2 (List.mem_cons_of_mem k hk2))
        (by simp only [List.length_cons] at hle; omega)
      simp only [cyclesEvents, clientRun_cons, h1, h2, h3, List.length_cons]
      rw [show r + 1 + ks.length = r + (ks.length + 1) by omega]
      simp [List.replicate_succ]

/-- The full schedule of a call whose every attempt fails: issue it, run
maxRetries failed cycles, and let the final attempt fail. -/
def failingTrace (req : ClientRequest) (ks : List FailKind) (klast : FailKind) :
    List ClientEvent :=
  .issue req 0 :: (cyclesEvents 0 0 ks ++ [failEvent 0 ks.length klast])

/-- C1: a call issued from the ready client whose every attempt fails by
timeout or error envelope while the iframe stays set is rejected after
exactly maxRetries + 1 sends — the initial send plus maxRetries resends of
the very same message, hence the same correlation id (id 0, the one the
initial send used). -/
theorem C1_retry_bound (cfg : ClientConfig) (req : ClientRequest)
    (ks : List FailKind) (klast : FailKind) (msg : ProxyRequestMessage)
    (hv : validateClientRequest req = true)
    (hm : buildClientMessage 0 req 0 = some msg)
    (hks : ks.length = cfg.maxRetries)
    (hwf : ∀ k ∈ ks, failKindWf k = true)
    (hkl : failKindWf klast = true) :
    (clientRun cfg readyState (failingTrace req ks klast)).2 =
      List.replicate (cfg.maxRetries + 1) (ClientAction.send msg) ++
        [.reject 0 (failErr cfg 0 klast)] ∧
    msg.requestId = 0 := by
  constructor
  · have hterm := fail_step_terminal cfg req ks.length klast
      (by rw [hks]; exact Nat.lt_irrefl _) hkl
    rw [failingTrace, clientRun_cons, issue_step cfg req msg hv hm, clientRun_append,
      cycles_run cfg req msg hm ks 0 hwf (by rw [Nat.zero_add, hks])]
    simp only [Nat.zero_add]
    rw [clientRun_cons, hterm]
    simp [clientRun, ← hks, List.replicate_succ]
  · cases req with
    | legacy r =>
        cases hA : API_ENDPOINTS r.method with
        | none => simp [buildClientMessage, hA] at hm
        | some ep =>
            simp only [buildClientMessage, hA, Option.some.injEq] at hm
            simp [← hm, ProxyRequestMessage.requestId]
    | enhanced r =>
        simp only [buildClientMessage, Option.some.injEq] at hm
        simp [← hm, ProxyRequestMessage.requestId]

/-- Closed witness for C1 with the default configuration (three retries) and
a mix of timeout and error-envelope failures: four identical sends with
correlation id 0, then the terminal rejection. -/
theorem C1_retry_bound_witness :
    (clientRun demoClientConfig readyState
      (failingTrace (.legacy c4Payload)
        [.timeout, .errEnvelope "boom", .timeout] .timeout)).2 =
      List.replicate 4 (ClientAction.send (.legacy 0 "/api/user" c4Payload 0)) ++
        [.reject 0 (createProxyErrorFor ProxyErrorType.TIMEOUT
          "Request timeout after 10000ms" 0)] ∧
    ProxyRequestMessage.requestId (.legacy 0 "/api/user" c4Payload 0) = 0 :=
  C1_retry_bound demoClientConfig (.legacy c4Payload)
    [.timeout, .errEnvelope "boom", .timeout] .timeout
    (.legacy 0 "/api/user" c4Payload 0)
    (by decide) rfl rfl (by decide) (by decide)

def isResolveAction : ClientAction → Bool
  | .resolve _ _ _ => true
  | _ => false

def isRejectAction : ClientAction → Bool
  | .reject _ _ => true
  | _ => false

/-- Number of calls resolved in a trace (the N of the status claim). -/
def countResolves (l : List ClientAction) : Nat :=
  (l.filter isResolveAction).length

/-- Number of calls rejected in a trace (the M of the status claim). -/
def countRejects (l : List ClientAction) : Nat :=
  (l.filter isRejectAction).length

def isRecvResponseEvent : ClientEvent → Bool
  | .recvResponse _ _ _ => true
  | _ => false

theorem countResolves_append (a b : List ClientAction) :
    countResolves (a ++ b) = countResolves a + countResolves b := by
  simp [countResolves]

theorem countRejects_append (a b : List ClientAction) :
    countRejects (a ++ b) = countRejects a + countRejects b := by
  simp [countRejects]

theorem mapSet_fresh {α : Type} (l : List (RequestId × α)) (k : RequestId) (v : α)
    (h : ∀ p ∈ l, p.1 ≠ k) : mapSet l k v = l ++ [(k, v)] := by
  induction l with
  | nil => rfl
  | cons hd tl ih =>
      obtain ⟨k1, v1⟩ := hd
      have hk : (k1 == k) = false := by
        simpa using h (k1, v1) (List.mem_cons_self _ _)
      simp [mapSet, hk, ih (fun p hp => h p (List.mem_cons_of_mem _ hp))]

theorem mapDelete_not_mem {α : Type} (l : List (RequestId × α)) (k : RequestId)
    (h : ∀ p ∈ l, p.1 ≠ k) : mapDelete l k = l := by
  rw [mapDelete, List.filter_eq_self]
  intro p hp
  simpa using h p hp

theorem mapGet_mem_keys {α : Type} (l : List (RequestId × α)) (k : RequestId)
    (v : α) (h : mapGet l k = some v) : k ∈ l.map Prod.fst := by
  rw [mapGet] at h
  rcases hf : l.find? (fun p => p.1 == k) with _ | p
  · rw [hf] at h
    cases h
  · have hmem := List.mem_of_find?_eq_some hf
    have hpk := List.find?_some hf
    have hp1 : p.1 = k := by simpa using hpk
    exact hp1 ▸ List.mem_map_of_mem Prod.fst hmem

theorem mapDelete_length {α : Type} (l : List (RequestId × α)) (k : RequestId)
    (hnd : (l.map Prod.fst).Nodup) (hmem : k ∈ l.map Prod.fst) :
    (mapDelete l k).length + 1 = l.length := by
  induction l with
  | nil => cases hmem
  | cons hd tl ih =>
      obtain ⟨k1, v1⟩ := hd
      simp only [List.map_cons, List.nodup_cons] at hnd
      rcases List.mem_cons.mp hmem with heq | hmem2
      · subst heq
        have hrest : mapDelete tl k = tl :=
          mapDelete_not_mem tl k
            (fun p hp hpk => hnd.1 (hpk ▸ List.mem_map_of_mem Prod.fst hp))
        simp only [mapDelete, List.filter_cons] at hrest ⊢
        simp [hrest]
      · have hk : k1 ≠ k := fun he => hnd.1 (he ▸ hmem2)
        have hrec := ih hnd.2 hmem2
        simp only [mapDelete, List.filter_cons] at hrec ⊢
        simp only [show (k1 != k) = true by simpa using hk, if_true,
          List.length_cons]
        omega

theorem countResolves_nil : countResolves [] = 0 := rfl
theorem countRejects_nil : countRejects [] = 0 := rfl
theorem countResolves_one_reject (rid : RequestId) (err : ProxyErr) :
    countResolves [ClientAction.reject rid err] = 0 := rfl
theorem countRejects_one_reject (rid : RequestId) (err : ProxyErr) :
    countRejects [ClientAction.reject rid err] = 1 := rfl
theorem countResolves_one_send (m : ProxyRequestMessage) :
    countResolves [ClientAction.send m] = 0 := rfl
theorem countRejects_one_send (m : ProxyRequestMessage) :
    countRejects [ClientAction.send m] = 0 := rfl
theorem countResolves_one_resolve (rid : RequestId) (v : JVal) (t : Nat) :
    countResolves [ClientAction.resolve rid v t] = 1 := rfl
theorem countRejects_one_resolve (rid : RequestId) (v : JVal) (t : Nat) :
    countRejects [ClientAction.resolve rid v t] = 0 := rfl

/-- The state invariant backing the status accounting: no retry closure is
outstanding (true whenever maxRetries is zero), the pending map has unique
keys, and every pending key is below the id counter. -/
def C7Inv (s : ClientState) : Prop :=
  s.retryWaits = [] ∧
  (s.pendingRequests.map Prod.fst).Nodup ∧
  (∀ p ∈ s.pendingRequests, p.1 < s.nextRequestId)

/-- The accounting triple a step must preserve, with the resolve / reject
counts of its emitted actions as the deltas. -/
def C7Acct (s : ClientState) (out : ClientState × List ClientAction) : Prop :=
  C7Inv out.1 ∧
  out.1.totalRequests + s.pendingRequests.length =
    s.totalRequests + countResolves out.2 + countRejects out.2 +
      out.1.pendingRequests.length ∧
  out.1.totalErrors = s.totalErrors + countRejects out.2

theorem c7_preserved (s s2 : ClientState) (acts : List ClientAction)
    (hInv : C7Inv s)
    (h1 : s2.retryWaits = s.retryWaits)
    (h2 : s2.pendingRequests = s.pendingRequests)
    (h3 : s2.nextRequestId = s.nextRequestId)
    (h4 : s2.totalRequests = s.totalRequests)
    (h5 : s2.totalErrors = s.totalErrors)
    (hres : countResolves acts = 0) (hrej : countRejects acts = 0) :
    C7Acct s (s2, acts) := by
  obtain ⟨hrw, hnd, hbound⟩ := hInv
  refine ⟨⟨?_, ?_, ?_⟩, ?_, ?_⟩
  · rw [h1, hrw]
  · rw [h2]
    exact hnd
  · rw [h2, h3]
    exact hbound
  · simp only [h2, h4, hres, hrej]
    omega
  · simp only [h5, hrej]
    omega

theorem handleRequestError_acct (cfg : ClientConfig) (hmr : cfg.maxRetries = 0)
    (s : ClientState) (rid : RequestId) (err : ProxyErr) (hInv : C7Inv s) :
    C7Acct s (handleRequestError cfg s rid err) := by
  obtain ⟨hrw, hnd, hbound⟩ := hInv
  rcases hg : mapGet s.pendingRequests rid with _ | pr
  · rw [handleRequestError, hg]
    exact c7_preserved s s [] ⟨hrw, hnd, hbound⟩ rfl rfl rfl rfl rfl rfl rfl
  · have hmem := mapGet_mem_keys _ _ _ hg
    have hlen := mapDelete_length s.pendingRequests rid hnd hmem
    have hret : ¬pr.retryCount < cfg.maxRetries := by omega
    rw [handleRequestError, hg]
    simp only [if_neg hret, cleanupRequest]
    refine ⟨⟨hrw, ?_, ?_⟩, ?_, ?_⟩
    · exact List.Nodup.sublist ((List.filter_sublist _).map Prod.fst) hnd
    · exact fun p hp => hbound p (List.mem_of_mem_filter hp)
    · dsimp only
      rw [countResolves_one_reject, countRejects_one_reject]
      omega
    · dsimp only
      simp [countRejects_one_reject]

theorem handleProxyResponse_acct (s : ClientState) (rid : RequestId)
    (resp : JVal) (now : Nat) (hInv : C7Inv s) :
    C7Acct s (handleProxyResponse s rid resp now) := by
  obtain ⟨hrw, hnd, hbound⟩ := hInv
  rcases hg : mapGet s.pendingRequests rid with _ | pr
  · rw [handleProxyResponse, hg]
    exact c7_preserved s s [] ⟨hrw, hnd, hbound⟩ rfl rfl rfl rfl rfl rfl rfl
  · have hmem := mapGet_mem_keys _ _ _ hg
    have hlen := mapDelete_length s.pendingRequests rid hnd hmem
    rw [handleProxyResponse, hg]
    simp only [cleanupRequest]
    refine ⟨⟨hrw, ?_, ?_⟩, ?_, ?_⟩
    · exact List.Nodup.sublist ((List.filter_sublist _).map Prod.fst) hnd
    · exact fun p hp => hbound p (List.mem_of_mem_filter hp)
    · dsimp only
      rw [countResolves_one_resolve, countRejects_one_resolve]
      omega
    · dsimp only
      simp [countRejects_one_resolve]

/-- A validated request always yields a wire message: legacy validation
checks the very table the legacy send consults. -/
theorem buildClientMessage_isSome (rid : RequestId) (req : ClientRequest)
    (now : Nat) (hv : validateClientRequest req = true) :
    (buildClientMessage rid req now).isSome = true := by
  cases req with
  | legacy r =>
      simp only [validateClientRequest, validateApiRequest,
        Bool.and_eq_true] at hv
      rcases hA : API_ENDPOINTS r.method with _ | ep
      · rw [hA] at hv
        simp at hv
      · simp [buildClientMessage, hA]
  | enhanced r => simp [buildClientMessage]

theorem c7_step (cfg : ClientConfig) (hmr : cfg.maxRetries = 0) (s : ClientState)
    (e : ClientEvent) (hd : e ≠ ClientEvent.destroy) (hInv : C7Inv s) :
    C7Acct s (clientStep cfg s e) := by
  have hInv2 := hInv
  obtain ⟨hrw, hnd, hbound⟩ := hInv2
  cases e with
  | setActiveIframe =>
      exact c7_preserved s _ [] hInv rfl rfl rfl rfl rfl rfl rfl
  | clearActiveIframe =>
      exact c7_preserved s _ [] hInv rfl rfl rfl rfl rfl rfl rfl
  | destroy => exact absurd rfl hd
  | issue req now =>
      cases hInit : s.isInitialized with
      | false =>
          have hstep : clientStep cfg s (.issue req now) =
              (s, [.throwSync (createProxyError ProxyErrorType.INITIALIZATION_ERROR
                "Proxy client not initialized")]) := by
            simp [clientStep, hInit]
          rw [hstep]
          exact c7_preserved s s _ hInv rfl rfl rfl rfl rfl rfl rfl
      | true =>
        cases hIf : s.activeIframe with
        | false =>
            have hstep : clientStep cfg s (.issue req now) =
                (s, [.throwSync (createProxyError ProxyErrorType.NO_ACTIVE_IFRAME
                  "No active iframe available for API requests")]) := by
              simp [clientStep, hInit, hIf]
            rw [hstep]
            exact c7_preserved s s _ hInv rfl rfl rfl rfl rfl rfl rfl
        | true =>
          cases hval : validateClientRequest req with
          | false =>
              have hstep : clientStep cfg s (.issue req now) =
                  (s, [.throwSync (createProxyError ProxyErrorType.INVALID_REQUEST
                    (invalidRequestMessage req))]) := by
                simp [clientStep, hInit, hIf, hval]
              rw [hstep]
              exact c7_preserved s s _ hInv rfl rfl rfl rfl rfl rfl rfl
          | true =>
            have hfresh : ∀ p ∈ s.pendingRequests, p.1 ≠ s.nextRequestId :=
              fun p hp => Nat.ne_of_lt (hbound p hp)
            have hset := mapSet_fresh s.pendingRequests s.nextRequestId
              { requestId := s.nextRequestId, startTime := now, retryCount := 0
                originalRequest := req } hfresh
            have hndnew : ((s.pendingRequests ++
                [(s.nextRequestId,
                  ({ requestId := s.nextRequestId, startTime := now
                     retryCount := 0, originalRequest := req } :
                    PendingRequest))]).map Prod.fst).Nodup := by
              rw [List.map_append]
              rw [List.nodup_append]
              refine ⟨hnd, List.nodup_singleton _, ?_⟩
              intro a ha hamem
              obtain ⟨q, hq, rfl⟩ := List.mem_map.mp ha
              have ha2 : q.1 = s.nextRequestId := by simpa using hamem
              exact hfresh q hq ha2
            have hboundnew : ∀ p ∈ s.pendingRequests ++
                [(s.nextRequestId,
                  ({ requestId := s.nextRequestId, startTime := now
                     retryCount := 0, originalRequest := req } :
                    PendingRequest))], p.1 < s.nextRequestId + 1 := by
              intro p hp
              rcases List.mem_append.mp hp with hold | hnew
              · exact Nat.lt_succ_of_lt (hbound p hold)
              · have hp1 : p.1 = s.nextRequestId := by
                  rcases List.mem_singleton.mp hnew with rfl
                  rfl
                rw [hp1]
                exact Nat.lt_succ_self _
            rcases hb : buildClientMessage s.nextRequestId req now with _ | msg
            · exfalso
              have hs := buildClientMessage_isSome s.nextRequestId req now hval
              rw [hb] at hs
              simp at hs
            · have hstep : clientStep cfg s (.issue req now) =
                  ({ s with
                      nextRequestId := s.nextRequestId + 1
                      totalRequests := s.totalRequests + 1
                      lastActivityTime := now
                      pendingRequests := s.pendingRequests ++
                        [(s.nextRequestId,
                          { requestId := s.nextRequestId, startTime := now
                            retryCount := 0, originalRequest := req })]
                      requestTimeouts := mapSet s.requestTimeouts s.nextRequestId
                        { requestId := s.nextRequestId, timerId := s.nextTimerId
                          startTime := now, timeoutMs := cfg.defaultTimeout }
                      nextTimerId := s.nextTimerId + 1 },
                   [.send msg]) := by
                simp [clientStep, hInit, hIf, hval, hb, hset, setupRequestTimeout]
              rw [hstep]
              refine ⟨⟨hrw, hndnew, hboundnew⟩, ?_, ?_⟩
              · dsimp only
                simp only [countResolves_one_send, countRejects_one_send,
                  List.length_append, List.length_singleton]
                omega
              · dsimp only
                simp [countRejects_one_send]
  | recvResponse rid resp now =>
      cases hL : s.listenerAttached with
      | false =>
          have hstep : clientStep cfg s (.recvResponse rid resp now) = (s, []) := by
            simp [clientStep, hL]
          rw [hstep]
          exact c7_preserved s s [] hInv rfl rfl rfl rfl rfl rfl rfl
      | true =>
        cases hT : jsTruthy resp with
        | false =>
            have hstep : clientStep cfg s (.recvResponse rid resp now) = (s, []) := by
              simp [clientStep, hL, hT]
            rw [hstep]
            exact c7_preserved s s [] hInv rfl rfl rfl rfl rfl rfl rfl
        | true =>
            have hstep : clientStep cfg s (.recvResponse rid resp now) =
                handleProxyResponse s rid resp now := by
              simp [clientStep, hL, hT]
            rw [hstep]
            exact handleProxyResponse_acct s rid resp now hInv
  | recvError rid t =>
      cases hL : s.listenerAttached with
      | false =>
          have hstep : clientStep cfg s (.recvError rid t) = (s, []) := by
            simp [clientStep, hL]
          rw [hstep]
          exact c7_preserved s s [] hInv rfl rfl rfl rfl rfl rfl rfl
      | true =>
        by_cases hT : t = ""
        · have hstep : clientStep cfg s (.recvError rid t) = (s, []) := by
            simp [clientStep, hL, hT]
          rw [hstep]
          exact c7_preserved s s [] hInv rfl rfl rfl rfl rfl rfl rfl
        · have hstep : clientStep cfg s (.recvError rid t) =
              handleRequestError cfg s rid
                (createProxyErrorFor ProxyErrorType.NETWORK_ERROR t rid) := by
            simp [clientStep, hL, hT, handleProxyError]
          rw [hstep]
          exact handleRequestError_acct cfg hmr s rid _ hInv
  | timeoutFire tid =>
      rcases hf : s.requestTimeouts.find? (fun p => p.2.timerId == tid) with _ | q
      · have hstep : clientStep cfg s (.timeoutFire tid) = (s, []) := by
          simp [clientStep, hf]
        rw [hstep]
        exact c7_preserved s s [] hInv rfl rfl rfl rfl rfl rfl rfl
      · rcases hg : mapGet s.pendingRequests q.2.requestId with _ | pr
        · have hstep : clientStep cfg s (.timeoutFire tid) = (s, []) := by
            simp [clientStep, hf, handleRequestTimeout, hg]
          rw [hstep]
          exact c7_preserved s s [] hInv rfl rfl rfl rfl rfl rfl rfl
        · have hstep : clientStep cfg s (.timeoutFire tid) =
              handleRequestError cfg s q.2.requestId
                (createProxyErrorFor ProxyErrorType.TIMEOUT
                  ("Request timeout after " ++ toString cfg.defaultTimeout ++ "ms")
                  q.2.requestId) := by
            simp [clientStep, hf, handleRequestTimeout, hg]
          rw [hstep]
          exact handleRequestError_acct cfg hmr s q.2.requestId _ hInv
  | retryFire tid now =>
      have hstep : clientStep cfg s (.retryFire tid now) = (s, []) := by
        simp [clientStep, hrw]
      rw [hstep]
      exact c7_preserved s s [] hInv rfl rfl rfl rfl rfl rfl rfl

theorem c7_run (cfg : ClientConfig) (hmr : cfg.maxRetries = 0)
    (events : List ClientEvent) (hd : ∀ e ∈ events, e ≠ ClientEvent.destroy) :
    ∀ s : ClientState, C7Inv s → C7Acct s (clientRun cfg s events) := by
  induction events with
  | nil =>
      intro s hInv
      refine ⟨hInv, ?_, ?_⟩ <;> simp [clientRun, countResolves, countRejects]
  | cons e es ih =>
      intro s hInv
      have hstep := c7_step cfg hmr s e (hd e (List.mem_cons_self e es)) hInv
      have hrest := ih (fun e2 he2 => hd e2 (List.mem_cons_of_mem e he2))
        (clientStep cfg s e).1 hstep.1
      obtain ⟨hi1, ha1, he1⟩ := hstep
      obtain ⟨hi2, ha2, he2⟩ := hrest
      refine ⟨?_, ?_, ?_⟩
      · simpa [clientRun_cons] using hi2
      · simp only [clientRun_cons]
        simp only [countResolves_append, countRejects_append]
        omega
      · simp only [clientRun_cons]
        simp only [countRejects_append]
        omega

theorem handleRequestError_responseTimes (cfg : ClientConfig) (s : ClientState)
    (rid : RequestId) (err : ProxyErr) :
    ((handleRequestError cfg s rid err).1).responseTimes = s.responseTimes := by
  rcases hg : mapGet s.pendingRequests rid with _ | pr
  · simp [handleRequestError, hg]
  · by_cases hret : pr.retryCount < cfg.maxRetries <;>
      simp [handleRequestError, hg, hret, cleanupRequest, retryRequest]

/-- Only an inbound response envelope can touch the latency buffer: every
other event leaves responseTimes unchanged (failed calls record nothing). -/
theorem clientStep_responseTimes (cfg : ClientConfig) (s : ClientState)
    (e : ClientEvent) (he : isRecvResponseEvent e = false) :
    ((clientStep cfg s e).1).responseTimes = s.responseTimes := by
  cases e with
  | setActiveIframe => rfl
  | clearActiveIframe => rfl
  | destroy => rfl
  | issue req now =>
      cases hInit : s.isInitialized
      · simp [clientStep, hInit]
      · cases hIf : s.activeIframe
        · simp [clientStep, hInit, hIf]
        · cases hval : validateClientRequest req
          · simp [clientStep, hInit, hIf, hval]
          · rcases hb : buildClientMessage s.nextRequestId req now with _ | msg <;>
              simp [clientStep, hInit, hIf, hval, hb, setupRequestTimeout,
                cleanupRequest]
  | recvResponse rid resp now => simp [isRecvResponseEvent] at he
  | recvError rid t =>
      cases hL : s.listenerAttached
      · simp [clientStep, hL]
      · by_cases hT : t = ""
        · simp [clientStep, hL, hT]
        · simp [clientStep, hL, hT, handleProxyError,
            handleRequestError_responseTimes]
  | timeoutFire tid =>
      rcases hf : s.requestTimeouts.find? (fun p => p.2.timerId == tid) with _ | q
      · simp [clientStep, hf]
      · rcases hg : mapGet s.pendingRequests q.2.requestId with _ | pr
        · simp [clientStep, hf, handleRequestTimeout, hg]
        · simp [clientStep, hf, handleRequestTimeout, hg,
            handleRequestError_responseTimes]
  | retryFire tid now =>
      rcases hf : s.retryWaits.find? (fun w => w.timerId == tid) with _ | w
      · simp [clientStep, hf]
      · cases hIf : s.activeIframe <;>
          rcases hb : buildClientMessage w.pending.requestId
            w.pending.originalRequest now with _ | m <;>
          simp [clientStep, hf, hIf, hb, setupRequestTimeout]

theorem handleProxyResponse_bound (s : ClientState) (rid : RequestId)
    (resp : JVal) (now : Nat) (h : s.responseTimes.length ≤ 100) :
    ((handleProxyResponse s rid resp now).1).responseTimes.length ≤ 100 := by
  rcases hg : mapGet s.pendingRequests rid with _ | pr
  · simpa [handleProxyResponse, hg] using h
  · simp only [handleProxyResponse, hg, cleanupRequest]
    by_cases hc : (s.responseTimes ++ [now - pr.startTime]).length > 100
    · simp only [hc, if_true]
      simp only [List.length_drop, List.length_append, List.length_singleton]
      omega
    · simp only [hc, if_false]
      simp only [List.length_append, List.length_singleton] at hc ⊢
      omega

theorem clientStep_bound (cfg : ClientConfig) (s : ClientState) (e : ClientEvent)
    (h : s.responseTimes.length ≤ 100) :
    ((clientStep cfg s e).1).responseTimes.length ≤ 100 := by
  cases e with
  | recvResponse rid resp now =>
      cases hL : s.listenerAttached
      · simpa [clientStep, hL] using h
      · cases hT : jsTruthy resp
        · simpa [clientStep, hL, hT] using h
        · have hb := handleProxyResponse_bound s rid resp now h
          simpa [clientStep, hL, hT] using hb
  | setActiveIframe =>
      rw [clientStep_responseTimes cfg s ClientEvent.setActiveIframe rfl]; exact h
  | clearActiveIframe =>
      rw [clientStep_responseTimes cfg s ClientEvent.clearActiveIframe rfl]; exact h
  | destroy =>
      rw [clientStep_responseTimes cfg s ClientEvent.destroy rfl]; exact h
  | issue req now =>
      rw [clientStep_responseTimes cfg s (ClientEvent.issue req now) rfl]; exact h
  | recvError rid t =>
      rw [clientStep_responseTimes cfg s (ClientEvent.recvError rid t) rfl]; exact h
  | timeoutFire tid =>
      rw [clientStep_responseTimes cfg s (ClientEvent.timeoutFire tid) rfl]; exact h
  | retryFire tid now =>
      rw [clientStep_responseTimes cfg s (ClientEvent.retryFire tid now) rfl]; exact h

/-- The latency buffer never exceeds 100 samples along any run. -/
theorem clientRun_bound (cfg : ClientConfig) (events : List ClientEvent) :
    ∀ s : ClientState, s.responseTimes.length ≤ 100 →
      ((clientRun cfg s events).1).responseTimes.length ≤ 100 := by
  induction events with
  | nil => intro s h; simpa [clientRun] using h
  | cons e es ih =>
      intro s h
      rw [clientRun_cons]
      exact ih (clientStep cfg s e).1 (clientStep_bound cfg s e h)

/-- The configuration of the status counterexample: one retry allowed. -/
def c7Config : ClientConfig :=
  { defaultTimeout := 10000, maxRetries := 1, retryDelay := 1000 }

/-- The history of the status counterexample: one call, two timed-out
attempts (one retry), terminal failure. -/
def c7Events : List ClientEvent :=
  [.issue (.legacy c4Payload) 0, .timeoutFire 0, .retryFire 1 0, .timeoutFire 2]

/-- C7 counterexample: with maxRetries = 1, a history with N = 0 resolved and
M = 1 terminally failed calls reports totalRequestCount = 1 = N + M as the
claim says, but errorCount = 2 ≠ M: handleRequestError counts every failed
attempt (the timeout before the retry and the terminal one), not failed
calls. -/
theorem C7_counterexample_errorCount_attempts :
    countResolves (clientRun c7Config readyState c7Events).2 = 0 ∧
    countRejects (clientRun c7Config readyState c7Events).2 = 1 ∧
    (clientGetStatus (clientRun c7Config readyState c7Events).1).totalRequestCount = 1 ∧
    (clientGetStatus (clientRun c7Config readyState c7Events).1).errorCount = 2 ∧
    ¬(clientGetStatus (clientRun c7Config readyState c7Events).1).errorCount =
        countRejects (clientRun c7Config readyState c7Events).2 :=
  ⟨rfl, rfl, rfl, rfl, by decide⟩

/-- C7 amended: getStatus reports totalRequestCount as the number of issued
calls, which equals N + M (resolved plus rejected) plus the still-pending
count; errorCount counts every failed attempt and therefore equals M exactly
when no retries happen (maxRetries = 0, destroy excluded); the average
response time is the rounded mean of the retained latency samples, which
only resolved calls contribute to, and the buffer never exceeds the 100 most
recent samples. -/
theorem C7_status_accounting :
    (∀ (cfg : ClientConfig) (s : ClientState) (e : ClientEvent),
      isRecvResponseEvent e = false →
      ((clientStep cfg s e).1).responseTimes = s.responseTimes) ∧
    (∀ (cfg : ClientConfig) (events : List ClientEvent),
      ((clientRun cfg readyState events).1).responseTimes.length ≤ 100) ∧
    (∀ s : ClientState, (clientGetStatus s).averageResponseTime =
      if s.responseTimes.length > 0 then
        jsRoundDiv (s.responseTimes.foldl (fun sum time => sum + time) 0)
          s.responseTimes.length
      else 0) ∧
    (∀ (cfg : ClientConfig) (events : List ClientEvent),
      cfg.maxRetries = 0 →
      (∀ e ∈ events, e ≠ ClientEvent.destroy) →
      (clientGetStatus (clientRun cfg readyState events).1).totalRequestCount =
          countResolves (clientRun cfg readyState events).2 +
          countRejects (clientRun cfg readyState events).2 +
          (clientGetStatus (clientRun cfg readyState events).1).pendingRequestCount ∧
      (clientGetStatus (clientRun cfg readyState events).1).errorCount =
          countRejects (clientRun cfg readyState events).2) := by
  refine ⟨clientStep_responseTimes, ?_, fun s => rfl, ?_⟩
  · intro cfg events
    exact clientRun_bound cfg events readyState (by simp [readyState, initialClientState])
  · intro cfg events hmr hd
    have hInv : C7Inv readyState := by
      refine ⟨rfl, ?_, ?_⟩ <;> simp [readyState, initialClientState]
    have h := c7_run cfg hmr events hd readyState hInv
    obtain ⟨_, ha, he⟩ := h
    constructor
    · have hz1 : readyState.pendingRequests.length = 0 := rfl
      have hz2 : readyState.totalRequests = 0 := rfl
      simp only [clientGetStatus]
      omega
    · have hz3 : readyState.totalErrors = 0 := rfl
      simp only [clientGetStatus]
      omega

/-- The history of the amended-C7 witness: with no retries allowed, one call
times out terminally and a second call resolves. -/
def c7WitnessEvents : List ClientEvent :=
  [.issue (.legacy c4Payload) 0, .timeoutFire 0,
   .issue (.legacy c4Payload) 5, .recvResponse 1 (.jobj [("success", .jbool true)]) 9]

def c7WitnessConfig : ClientConfig :=
  { defaultTimeout := 10000, maxRetries := 0, retryDelay := 1000 }

/-- Closed witness for the amended C7: two issued calls, one resolved and one
rejected, give totalRequestCount 2 = 1 + 1 + 0 and errorCount 1. -/
theorem C7_status_accounting_witness :
    (clientGetStatus (clientRun c7WitnessConfig readyState c7WitnessEvents).1).totalRequestCount =
        countResolves (clientRun c7WitnessConfig readyState c7WitnessEvents).2 +
        countRejects (clientRun c7WitnessConfig readyState c7WitnessEvents).2 +
        (clientGetStatus (clientRun c7WitnessConfig readyState c7WitnessEvents).1).pendingRequestCount ∧
    (clientGetStatus (clientRun c7WitnessConfig readyState c7WitnessEvents).1).errorCount =
        countRejects (clientRun c7WitnessConfig readyState c7WitnessEvents).2 ∧
    (clientGetStatus (clientRun c7WitnessConfig readyState c7WitnessEvents).1).totalRequestCount = 2 ∧
    (clientGetStatus (clientRun c7WitnessConfig readyState c7WitnessEvents).1).errorCount = 1 := by
  have h := C7_status_accounting.2.2.2 c7WitnessConfig c7WitnessEvents rfl
    (by intro e he; simp only [c7WitnessEvents, List.mem_cons,
      List.mem_singleton] at he
        rcases he with rfl | rfl | rfl | rfl | h2 <;> simp_all)
  exact ⟨h.1, h.2, rfl, rfl⟩

end IframeProxy
